import Mathlib

/-!
Shallow embedding of the CV-Query-Engine RAG pipeline (backend/rag/…) in Lean 4,
with theorems checking the natural-language specification against the code.

Modelling conventions:
* Python `float` is modelled as `ℚ` (exact arithmetic); decimal literals such as
  `0.1`, `0.04`, `1.3` become the corresponding rationals.
* Python `str` is modelled as `String`; `int(...)` on strings is modelled on
  ASCII digit strings with optional sign and surrounding whitespace.
* Python dicts with a fixed key vocabulary are modelled as structures; dicts used
  as ordered maps (insertion-ordered) are modelled as association lists.
* External collaborators (LLM, vector search, memory store, `json.loads`) are
  modelled as explicit function parameters; a fallible call is a value of
  `Except String α`.
-/

/- ------------------------------------------------------------------ -/
/- Python string / number primitives                                   -/
/- ------------------------------------------------------------------ -/

/-- Characters removed by Python `str.strip()` with no argument. -/
def pyIsSpace (c : Char) : Bool :=
  c = ' ' || c = '\t' || c = '\n' || c = '\r' || c = '\x0b' || c = '\x0c'

/-- Python `str.strip()` (no argument): strip whitespace from both ends. -/
def pyStrip (s : String) : String :=
  String.mk (((s.toList.dropWhile pyIsSpace).reverse.dropWhile pyIsSpace).reverse)

/-- Python `str.strip(chars)`: strip any of the given characters from both ends. -/
def pyStripChars (cut : List Char) (s : String) : String :=
  String.mk (((s.toList.dropWhile (· ∈ cut)).reverse.dropWhile (· ∈ cut)).reverse)

/-- Python `str.lower()` (ASCII case folding). -/
def pyLower (s : String) : String := String.mk (s.data.map Char.toLower)

/-- Python `s.split(sep)` for a one-character separator: all parts, empty
parts included (`"".split(sep) == [""]`). -/
def splitOnChar (sep : Char) : List Char → List (List Char)
  | [] => [[]]
  | c :: cs =>
    match splitOnChar sep cs with
    | [] => [[]]
    | h :: t => if c = sep then [] :: h :: t else (c :: h) :: t

/-- String version of `splitOnChar`. -/
def pySplit (sep : Char) (s : String) : List String :=
  (splitOnChar sep s.data).map String.mk

/-- Python `s.startswith(p)`. -/
def pyStartsWith (s p : String) : Bool := p.data.isPrefixOf s.data

/-- First `n` characters of a string (Python `s[:n]` for `n ≥ 0`). -/
def strTake (n : Nat) (s : String) : String := String.mk (s.data.take n)

/-- Drop the first `n` characters of a string (Python `s[n:]` for `n ≥ 0`). -/
def strDrop (n : Nat) (s : String) : String := String.mk (s.data.drop n)

/-- First-occurrence deduplication: the model of iterating a Python `set`
built by successive `add`s (insertion order). -/
def pyDedup (l : List String) : List String :=
  l.foldl (fun acc x => if x ∈ acc then acc else acc ++ [x]) []

/-- Decimal value of a nonempty all-digit character list (else `none`). -/
def digitsVal (l : List Char) : Option Nat :=
  if l = [] then none
  else if l.all Char.isDigit then
    some (l.foldl (fun acc c => acc * 10 + (c.toNat - '0'.toNat)) 0)
  else none

/-- Python `int(s)` on a decimal string: strips whitespace, allows one
optional sign, then requires a nonempty ASCII digit run; every other
input raises `ValueError`, modelled as `none`. -/
def pyInt (s : String) : Option Int :=
  match (pyStrip s).toList with
  | '+' :: rest => (digitsVal rest).map (fun n => (n : Int))
  | '-' :: rest => (digitsVal rest).map (fun n => -(n : Int))
  | rest => (digitsVal rest).map (fun n => (n : Int))

/-- Whether `needle` occurs as a contiguous sublist of the second list. -/
def listHasSub (needle : List Char) : List Char → Bool
  | [] => needle.isEmpty
  | c :: cs => needle.isPrefixOf (c :: cs) || listHasSub needle cs

/-- Python `needle in hay` on strings (contiguous substring test). -/
def strHasSub (hay needle : String) : Bool := listHasSub needle.toList hay.toList

/-- Python regex `\w` character class restricted to ASCII. -/
def isWordChar (c : Char) : Bool := c.isAlphanum || c = '_'

/-- Maximal runs of characters grouped by `isWordChar`/non-word, in order,
each tagged with whether it is a word run.  Basis for `re.findall(r"\w+", s)`
and for the word-boundary (`\b`) reasoning used by the toxicity patterns. -/
def charRuns : List Char → List (Bool × List Char)
  | [] => []
  | c :: cs =>
    match charRuns cs with
    | [] => [(isWordChar c, [c])]
    | (b, xs) :: rest =>
      if b = isWordChar c then (isWordChar c, c :: xs) :: rest
      else (isWordChar c, [c]) :: (b, xs) :: rest

/-- Python `re.findall(r"\w+", s)`: the maximal word-character runs of `s`. -/
def wordTokens (s : String) : List String :=
  ((charRuns s.toList).filter (·.1)).map (fun p => String.mk p.2)

/-- Round half to even on ℚ (Python `round` / builtin float rounding mode). -/
def rhe (q : ℚ) : ℤ :=
  if q - ⌊q⌋ < 1/2 then ⌊q⌋
  else if 1/2 < q - ⌊q⌋ then ⌊q⌋ + 1
  else if ⌊q⌋ % 2 = 0 then ⌊q⌋ else ⌊q⌋ + 1

/-- Python `round(x, 2)`. -/
def pyRound2 (q : ℚ) : ℚ := (rhe (q * 100) : ℚ) / 100

/-- Python `int(x)` on a number: truncation toward zero. -/
def pyIntTrunc (q : ℚ) : ℤ := if 0 ≤ q then ⌊q⌋ else ⌈q⌉

/-- Left-pad a string with zeros to the given length. -/
def padZeros (n : Nat) (s : String) : String :=
  String.mk (List.replicate (n - s.length) '0') ++ s

/-- Python `f"{x:.<prec>f}"` fixed-point formatting of a rational. -/
def formatFix (prec : Nat) (q : ℚ) : String :=
  let n := rhe (q * ((10 : ℚ) ^ prec))
  let sign := if n < 0 then "-" else ""
  let m := n.natAbs
  if prec = 0 then sign ++ toString m
  else sign ++ toString (m / 10 ^ prec) ++ "." ++ padZeros prec (toString (m % 10 ^ prec))

/- ------------------------------------------------------------------ -/
/- ExperienceScorer  (backend/rag/tools/context_aggregator.py)         -/
/- ------------------------------------------------------------------ -/

/-- `ExperienceScorer.SENIORITY_WEIGHTS`, in the source's insertion order
(Python dict iteration order). -/
def SENIORITY_WEIGHTS : List (String × ℚ) :=
  [("principal", 3/2), ("lead", 7/5), ("senior", 13/10), ("manager", 13/10),
   ("mid", 11/10), ("engineer", 1), ("developer", 1), ("junior", 9/10),
   ("intern", 3/5), ("entry", 4/5)]

/-- `ExperienceScorer.parse_duration`.  Mirrors the source exactly: the whole
body is one `try` whose `except (ValueError, AttributeError)` returns `None`;
a failing `int(...)` therefore aborts the remaining branches. -/
def parse_duration (currentYear : Int) (durationStr : String) : Option (Int × Int) :=
  if durationStr = "" then none
  else if strHasSub (pyLower durationStr) "present" then
    -- parts = duration_str.split('-'); int(parts[0].strip())
    match pyInt (pyStrip (((pySplit '-' durationStr).headD ""))) with
    | some y => some (y, currentYear)
    | none => none
  else if durationStr.toList.contains '-' then
    -- start, end = duration_str.split('-')[:2]
    match pySplit '-' durationStr with
    | a :: b :: _ =>
      match pyInt (pyStrip a), pyInt (pyStrip b) with
      | some x, some y => some (x, y)
      | _, _ => none
    | _ => none
  else if durationStr.toList.contains '/' then
    -- dates = [d.strip() for d in duration_str.split('-') if d.strip()]
    let dates := (((pySplit '-' durationStr).map pyStrip).filter (· ≠ ""))
    if 2 ≤ dates.length then
      -- start_month, start_year = dates[0].split('/');  (exactly-2 unpacking)
      match pySplit '/' (dates.headD ""), pySplit '/' ((dates.drop 1).headD "") with
      | [_, y1], [_, y2] =>
        match pyInt y1, pyInt y2 with
        | some a, some b => some (a, b)
        | _, _ => none
      | _, _ => none
    else none
  else none

/-- One experience entry, as consumed by the scorer and the profile renderer.
The source reads these keys from a decoded JSON dict with `job.get(...)`;
an `Option` field distinguishes an absent key from an empty value.
`RESPONSIBILITIES` is modelled as the string form (the source also accepts a
list; only the string form is exercised by the claims). -/
structure Job where
  TITLE : Option String := none
  COMPANY : Option String := none
  DURATION : Option String := none
  RESPONSIBILITIES : Option String := none
  deriving Repr, DecidableEq

/-- `ExperienceScorer.calculate_position_score`.  `currentYear` models
`datetime.now().year` captured at scorer construction; `queryTerms` models
`self.query_terms` (the lower-cased `\w+` tokens of the query). -/
def calculate_position_score (currentYear : Int) (queryTerms : List String) (job : Job) : ℚ :=
  match parse_duration currentYear (job.DURATION.getD "") with
  | none => 0
  | some (startYear, endYear) =>
    let years : Int := max 1 (endYear - startYear)
    let base : ℚ := (years : ℚ) * (1 + (1/10) * (years : ℚ))
    let yearsAgo : Int := currentYear - endYear
    let recency : ℚ := max (4/5) (6/5 - (yearsAgo : ℚ) * (1/25))
    let title := pyLower (job.TITLE.getD "")
    let seniority : ℚ :=
      ((SENIORITY_WEIGHTS.find? (fun p => strHasSub title p.1)).map (·.2)).getD 1
    let jobDesc := pyLower ((job.TITLE.getD "") ++ " " ++ (job.COMPANY.getD "") ++ " "
      ++ (job.RESPONSIBILITIES.getD ""))
    let domainBoost : ℚ :=
      if queryTerms.any (fun t => 3 < t.length && strHasSub jobDesc t) then 13/10 else 1
    base * recency * seniority * domainBoost

/-- `ExperienceScorer.score_candidate`. -/
def score_candidate (currentYear : Int) (queryTerms : List String) (experience : List Job) : ℚ :=
  if experience = [] then 0
  else
    let total := (experience.map (calculate_position_score currentYear queryTerms)).sum
    let total := if 3 ≤ experience.length then total * (11/10) else total
    pyRound2 total

/-- `ExperienceScorer.__init__`: `query_terms` is the set of lower-cased
`\w+` tokens of the query (set modelled as a first-occurrence dedup). -/
def scorerQueryTerms (query : String) : List String :=
  if query = "" then [] else pyDedup ((wordTokens query).map pyLower)

/- ------------------------------------------------------------------ -/
/- ContextAggregator data model (backend/rag/tools/context_aggregator.py) -/
/- ------------------------------------------------------------------ -/

/-- The decoded `SKILLS` value: the source's `_parse_field` yields either a
flat list or (via a JSON object) a category → items mapping. -/
inductive Skills where
  | flat (items : List String)
  | byCategory (cats : List (String × List String))
  deriving Repr, DecidableEq

/-- A search-result metadata mapping, modelled with the fixed key vocabulary
the aggregator reads.  `Option` distinguishes an absent key; `EXPERIENCE` and
`SKILLS` hold the JSON-decoded structured values that the source's
`_parse_field` recovers from the stored strings (the JSON decoding itself is
an external library call and is modelled as already done). -/
structure Metadata where
  id : Option String := none
  EMAIL : Option String := none
  NAME : Option String := none
  PHONE : Option String := none
  LINKEDIN : Option String := none
  LOCATION : Option String := none
  CURRENT_COMPANY : Option String := none
  RELEVANCE : ℚ := 0
  EXPERIENCE : List Job := []
  SKILLS : Skills := .flat []
  source : Option String := none
  deriving Repr, DecidableEq

/-- One raw search-result dict as consumed by the aggregator:
`metadata` (default `{}`), `text` / `page_content`, `score` (default 0). -/
structure SearchResult where
  metadata : Metadata := {}
  text : Option String := none
  page_content : Option String := none
  score : ℚ := 0
  deriving Repr, DecidableEq

/-- `result.get('text', result.get('page_content', ''))`. -/
def resultText (r : SearchResult) : String := r.text.getD (r.page_content.getD "")

/-- Python truthiness of an optional string (absent or empty → falsy),
used for the `or` chains over `metadata.get(...)` values. -/
def truthyStr : Option String → Option String
  | some s => if s = "" then none else some s
  | none => none

/-- Model of `str(hash(json.dumps(metadata, sort_keys=True)))`: a stable,
deterministic digest string of the full metadata mapping (Python's process
hash of the canonical JSON is modelled by a hash of a canonical rendering). -/
def metaHash (md : Metadata) : String := toString (String.hash (reprStr md))

/-- The derived candidate identity:
`metadata.get('id') or metadata.get('EMAIL') or str(hash(json.dumps(...)))`. -/
def derivedId (md : Metadata) : String :=
  match truthyStr md.id with
  | some s => s
  | none =>
    match truthyStr md.EMAIL with
    | some s => s
    | none => metaHash md

/-- One aggregation record (a value of the `candidates` dict in
`ContextAggregator.process_results`). -/
structure Candidate where
  metadata : Metadata
  experience : List Job
  skills : Skills
  score : ℚ
  text_chunks : List (String × ℚ)
  deriving Repr, DecidableEq

/-- `ContextAggregator` state after `__init__`.  `memoryResults` models the
value `_fetch_memory()` returns from the external memory collaborator
(`[]` when no memory is configured or the lookup fails); `currentYear` is the
scorer's `datetime.now().year`. -/
structure ContextAggregator where
  query : String := ""
  requested_fields : List String := []
  memoryResults : List SearchResult := []
  currentYear : Int := 2024

/-- `ContextAggregator.__init__`: lower-cases the requested fields
(`None` or `[]` become `[]`). -/
def mkContextAggregator (query : String) (requestedFields : Option (List String))
    (memoryResults : List SearchResult) (currentYear : Int) : ContextAggregator :=
  { query,
    requested_fields :=
      match requestedFields with
      | none => []
      | some l => if l = [] then [] else l.map pyLower,
    memoryResults, currentYear }

/-- Creation of a candidate record at first occurrence of an identity:
metadata, parsed EXPERIENCE / SKILLS, and the experience score computed once
from the parsed experience (`self.scorer.score_candidate(...)`). -/
def mkCandidate (agg : ContextAggregator) (md : Metadata) : Candidate :=
  { metadata := md
    experience := md.EXPERIENCE
    skills := md.SKILLS
    score := score_candidate agg.currentYear (scorerQueryTerms agg.query) md.EXPERIENCE
    text_chunks := [] }

/-- One iteration of the `for result in combined_results` loop of
`process_results`: insert a new record for an unseen identity, then append
the result's text chunk (when non-blank) to that identity's record.
The `candidates` dict is an insertion-ordered association list. -/
def addResult (agg : ContextAggregator) (acc : List (String × Candidate))
    (r : SearchResult) : List (String × Candidate) :=
  let cid := derivedId r.metadata
  let acc := if acc.any (fun p => p.1 = cid) then acc else acc ++ [(cid, mkCandidate agg r.metadata)]
  let text := resultText r
  if pyStrip text ≠ "" then
    acc.map (fun p =>
      if p.1 = cid then (p.1, { p.2 with text_chunks := p.2.text_chunks ++ [(text, r.score)] })
      else p)
  else acc

/-- The `candidates` dict built by `process_results` over a result list. -/
def buildCandidates (agg : ContextAggregator) (rs : List SearchResult) :
    List (String × Candidate) :=
  rs.foldl (addResult agg) []

/-- `sorted(..., key=lambda x: (x['score'], x['metadata'].get('RELEVANCE', 0.0)),
reverse=True)`: stable descending order on the lexicographic pair. -/
def candidateSortLE (a b : Candidate) : Bool :=
  b.score < a.score || (b.score = a.score && b.metadata.RELEVANCE ≤ a.metadata.RELEVANCE)

/-- `ContextAggregator.process_results`: memory union, grouping by derived
identity, and the final stable descending sort. -/
def process_results (agg : ContextAggregator) (search_results : List SearchResult) :
    List Candidate :=
  let combined := search_results ++ agg.memoryResults
  ((buildCandidates agg combined).map (·.2)).mergeSort candidateSortLE

/-- Lower-case a character list. -/
def lowerChars (l : List Char) : List Char := l.map Char.toLower

/-- `re.sub(f'({term})', r'**\1**', text, flags=re.IGNORECASE)` for a literal
word-character `term`: left-to-right non-overlapping case-insensitive
replacement wrapping each occurrence in `**`. -/
def ciReplList (t : List Char) : List Char → List Char
  | [] => []
  | c :: cs =>
    if t ≠ [] ∧ lowerChars t = lowerChars ((c :: cs).take t.length) then
      '*' :: '*' :: ((c :: cs).take t.length ++ '*' :: '*' :: ciReplList t ((c :: cs).drop t.length))
    else c :: ciReplList t cs
termination_by l => l.length
decreasing_by
  · simp only [List.length_drop]
    have ht : 0 < t.length := List.length_pos.mpr (by tauto)
    simp only [List.length_cons]
    omega
  · simp only [List.length_cons]
    omega

/-- String version of `ciReplList`. -/
def ciReplace (term text : String) : String := String.mk (ciReplList term.toList text.toList)

/-- `ContextAggregator.highlight_query_terms`.  The Python `set` of query
terms is modelled as a first-occurrence dedup of the token list. -/
def highlight_query_terms (agg : ContextAggregator) (text : String) : String :=
  if agg.query = "" then text
  else
    (pyDedup (((wordTokens agg.query).filter (fun t => 3 < t.length)).map pyLower)).foldl
      (fun txt term => ciReplace term txt) text

/-- Python `str.title()` (ASCII behaviour). -/
def titleGo : Bool → List Char → List Char
  | _, [] => []
  | prevAlpha, c :: cs =>
    (if c.isAlpha then (if prevAlpha then c.toLower else c.toUpper) else c)
      :: titleGo c.isAlpha cs

/-- Python `str.title()`. -/
def pyTitleCase (s : String) : String := String.mk (titleGo false s.toList)

/-- Python truthiness of a decoded skills value. -/
def skillsTruthy : Skills → Bool
  | .flat l => l ≠ []
  | .byCategory l => l ≠ []

/-- `job.get('RESPONSIBILITIES', [])` followed by the string-splitting branch:
split on `;`, strip, drop blanks. -/
def jobResponsibilities (job : Job) : List String :=
  match job.RESPONSIBILITIES with
  | none => []
  | some s => ((pySplit ';' s).map pyStrip).filter (· ≠ "")

/-- Stable descending sort key for experience entries inside a profile
(`sorted(..., key=lambda j: -self.scorer.calculate_position_score(j))`). -/
def jobSortLE (agg : ContextAggregator) (a b : Job) : Bool :=
  calculate_position_score agg.currentYear (scorerQueryTerms agg.query) b
    ≤ calculate_position_score agg.currentYear (scorerQueryTerms agg.query) a

/-- `ContextAggregator.generate_profile`. -/
def generate_profile (agg : ContextAggregator) (candidate : Candidate) : String :=
  let meta := candidate.metadata
  let rf := agg.requested_fields
  let parts : List String :=
    ["\n## " ++ meta.NAME.getD "Unnamed Candidate"
      ++ " (Experience Score: " ++ formatFix 1 candidate.score ++ ")"]
  let parts := parts ++
    (if "contact" ∈ rf ∨ rf = [] then
      let contact :=
        (match truthyStr meta.EMAIL with | some e => ["✉️ " ++ e] | none => []) ++
        (match truthyStr meta.PHONE with | some p => ["📞 " ++ p] | none => []) ++
        (match truthyStr meta.LINKEDIN with | some l => ["🔗 " ++ l] | none => [])
      if contact ≠ [] then ["\n" ++ String.intercalate " | " contact] else []
    else [])
  let parts := parts ++
    (if "location" ∈ rf ∨ rf = [] then
      (match truthyStr meta.LOCATION with
        | some l => ["**Location:** " ++ l] | none => []) ++
      (match truthyStr meta.CURRENT_COMPANY with
        | some c => ["**Current Role:** " ++ c] | none => [])
    else [])
  let parts := parts ++
    (if ("experience" ∈ rf ∨ rf = []) ∧ candidate.experience ≠ [] then
      ["\n### Professional Experience"] ++
      ((candidate.experience.mergeSort (jobSortLE agg)).take 3).foldl (fun acc job =>
        acc ++ ["- **" ++ job.TITLE.getD "Unknown Position" ++ "** at *"
                ++ job.COMPANY.getD "Unknown" ++ "* (" ++ job.DURATION.getD "N/A" ++ ")"]
            ++ ((jobResponsibilities job).take 2).map
                 (fun resp => "  - " ++ highlight_query_terms agg resp)) []
    else [])
  let parts := parts ++
    (if ("skills" ∈ rf ∨ rf = []) ∧ skillsTruthy candidate.skills then
      ["\n### Technical Skills"] ++
      (match candidate.skills with
        | .byCategory cats =>
          cats.map (fun p =>
            "- **" ++ pyTitleCase p.1 ++ ":** " ++ String.intercalate ", " (p.2.take 8)
              ++ (if 8 < p.2.length then "..." else ""))
        | .flat items => ["- " ++ String.intercalate ", " (items.take 15)])
    else [])
  let parts := parts ++
    (if ("excerpts" ∈ rf ∨ rf = []) ∧ candidate.text_chunks ≠ [] then
      ["\n### Relevant Experience Highlights"] ++
      (((candidate.text_chunks.mergeSort (fun a b => b.2 ≤ a.2)).take 2).enumFrom 1).map
        (fun ic =>
          let highlighted := highlight_query_terms agg ic.2.1
          "\n**Excerpt " ++ toString ic.1 ++ "** (Relevance: " ++ formatFix 2 ic.2.2
            ++ "):\n> " ++ strTake 300 highlighted
            ++ (if 300 < highlighted.length then "..." else ""))
    else [])
  String.intercalate "\n" parts

/-- `ContextAggregator.aggregate`. -/
def aggregate (agg : ContextAggregator) (search_results : List SearchResult) : String :=
  if search_results = [] then "No matching candidates found."
  else
    let profiles := process_results agg search_results
    let output :=
      ["# Candidate Search Results (" ++ toString profiles.length ++ " matches)",
       "**Query:** " ++ agg.query,
       "**Sorted by:** Experience Score + Relevance\n"]
    let output := output ++ profiles.foldl (fun acc c => acc ++ [generate_profile agg c, "\n---"]) []
    String.intercalate "\n" output

/-- Return shape of `aggregate_contexts`: the Python function returns the
empty list `[]` on empty input and a report string otherwise. -/
inductive AggOutput where
  | emptyList
  | report (text : String)
  deriving Repr, DecidableEq

/-- `sorted(search_results, key=lambda x: x.get('score', 0), reverse=True)`. -/
def resultSortLE (a b : SearchResult) : Bool := b.score ≤ a.score

/-- `aggregate_contexts`, the LangChain tool entry point. -/
def aggregate_contexts (search_results : List SearchResult) (query : String := "")
    (max_candidates : Nat := 10) (requested_fields : Option (List String) := none)
    (memoryResults : List SearchResult := []) (currentYear : Int := 2024) : AggOutput :=
  if search_results = [] then .emptyList
  else
    let sortedRs := search_results.mergeSort resultSortLE
    let truncated := if max_candidates < sortedRs.length then sortedRs.take max_candidates else sortedRs
    .report (aggregate (mkContextAggregator query requested_fields memoryResults currentYear) truncated)

/- ------------------------------------------------------------------ -/
/- QueryAnalyzer  (backend/rag/tools/query_analyzer.py)                -/
/- ------------------------------------------------------------------ -/

/-- The language-model collaborator: `invoke(prompt)` returns response text or
raises (modelled as `Except.error`).  Responses with a `.content` attribute are
modelled as the plain text already extracted. -/
structure LLMModel where
  invoke : String → Except String String

/-- `ToxicityLevels.MILD`. -/
def MILD : Nat := 1

/-- `ToxicityLevels.MODERATE`. -/
def MODERATE : Nat := 2

/-- `ToxicityLevels.SEVERE`. -/
def SEVERE : Nat := 3

/-- The three regex shapes used by `QueryAnalyzer.toxic_patterns`:
`words ws` is `\b(w1|…|wn)\b`; `seqTwo f ts` is `\b(f\b.*\b(t1|t2))\b`;
`triple a b c` is `\b(a…)\s+(b…)\s+(c…)\b`. -/
inductive ToxPattern where
  | words (ws : List String)
  | seqTwo (first : String) (targets : List String)
  | triple (a b c : List String)
  deriving DecidableEq

/-- `.*` continuation for `seqTwo`: scan forward over runs for a whole-word
target, failing if a newline separator intervenes (`.` does not match `\n`). -/
def seqAfter (targets : List String) : List (Bool × List Char) → Bool
  | [] => false
  | (isWord, xs) :: rest =>
    if isWord then targets.contains (String.mk xs) || seqAfter targets rest
    else !xs.contains '\n' && seqAfter targets rest

/-- `\b(first\b.*\b(t1|t2))\b`: a whole word `first` followed (newline-free)
by a whole word from `targets`.  `\b…\b` around a word-character alternation
matches exactly the maximal word runs equal to an alternative. -/
def seqScan (first : String) (targets : List String) : List (Bool × List Char) → Bool
  | [] => false
  | (isWord, xs) :: rest =>
    (isWord && String.mk xs = first && seqAfter targets rest) || seqScan first targets rest

/-- Head test for `\b(a…)\s+(b…)\s+(c…)\b`: three consecutive whole words
from the given alternation sets separated by whitespace-only runs. -/
def tripleHead (a b c : List String) : List (Bool × List Char) → Bool
  | (true, x) :: (false, s1) :: (true, y) :: (false, s2) :: (true, z) :: _ =>
    a.contains (String.mk x) && s1.all pyIsSpace && b.contains (String.mk y)
      && s2.all pyIsSpace && c.contains (String.mk z)
  | _ => false

/-- Scan for `tripleHead` at every suffix of the run list. -/
def tripleScan (a b c : List String) : List (Bool × List Char) → Bool
  | [] => false
  | ch :: rest => tripleHead a b c (ch :: rest) || tripleScan a b c rest

/-- `re.search(pattern, query, re.IGNORECASE)` for the three pattern shapes,
evaluated on the word/non-word runs of the lower-cased query. -/
def patternMatches (p : ToxPattern) (q : String) : Bool :=
  let runs := charRuns (pyLower q).toList
  match p with
  | .words ws => ((runs.filter (·.1)).map (fun r => String.mk r.2)).any (fun t => ws.contains t)
  | .seqTwo f ts => seqScan f ts runs
  | .triple a b c => tripleScan a b c runs

/-- `QueryAnalyzer.toxic_patterns`: (pattern, severity, category), in source
order. -/
def toxic_patterns : List (ToxPattern × Nat × String) :=
  [(.words ["dumb", "stupid", "idiot", "fool", "shit", "damn"], (MILD, "profanity")),
   (.words ["retard", "moron", "asshole", "bitch", "bastard"], (MODERATE, "insult")),
   (.seqTwo "hate" ["you", "people"], (MODERATE, "hate_speech")),
   (.seqTwo "kill" ["yourself", "others"], (SEVERE, "threat")),
   (.words ["rape", "murder", "suicide"], (SEVERE, "violence")),
   (.words ["nigger", "fag", "chink", "spic"], (SEVERE, "slur")),
   (.triple ["women", "men", "blacks", "whites"] ["are", "should"] ["stupid", "die"],
     (SEVERE, "discrimination"))]

/-- The `detected_level = max(detected_level, level)` accumulation over the
pattern loop of `_detect_toxicity`. -/
def detectedLevel (q : String) : Nat :=
  toxic_patterns.foldl (fun acc p => if patternMatches p.1 q then max acc p.2.1 else acc) 0

/-- The accumulated `categories` set of `_detect_toxicity` (a Python `set`,
modelled as an insertion-ordered dedup; the categories are pairwise distinct
across rules). -/
def detectedCategories (q : String) : List String :=
  pyDedup ((toxic_patterns.filter (fun p => patternMatches p.1 q)).map (fun p => p.2.2))

/-- `QueryAnalyzer._get_rejection_message`. -/
def get_rejection_message (level : Nat) : String :=
  if level = MILD then "Please maintain professional language"
  else if level = MODERATE then "Inappropriate language detected"
  else "Query violates content policy"

/-- The sanitization prompt of `QueryAnalyzer._rewrite_query` (triple-quoted
indentation not reproduced; the prompt is opaque to the pipeline). -/
def rewritePrompt (query : String) (toxicityLevel : Nat) : String :=
  "Rewrite this query to be professional while preserving intent:\n\nOriginal: "
    ++ query ++ "\n\nRules:\n1. Remove all inappropriate language\n2. Maintain professional tone\n3. "
    ++ (if MODERATE ≤ toxicityLevel then "Only preserve core meaning" else "Keep original intent")
    ++ "\n4. " ++ (if toxicityLevel = SEVERE then "Remove any discriminatory content" else "")
    ++ "\n\nRewritten Query:"

/-- `QueryAnalyzer._rewrite_query`: LLM rewrite, stripped; an exception from
the collaborator yields `None`. -/
def rewrite_query (llm : LLMModel) (query : String) (toxicityLevel : Nat) : Option String :=
  match llm.invoke (rewritePrompt query toxicityLevel) with
  | .ok r => some (pyStrip r)
  | .error _ => none

/-- The dict returned by `QueryAnalyzer._detect_toxicity`. -/
structure ToxicityDict where
  is_toxic : Bool
  toxicity_level : Nat := 0
  toxicity_categories : List String := []
  rejection_reason : Option String := none
  safe_query : Option String := none
  deriving Repr, DecidableEq

/-- `QueryAnalyzer._detect_toxicity`. -/
def detect_toxicity (llm : LLMModel) (query : String) : ToxicityDict :=
  let lvl := detectedLevel query
  if 0 < lvl then
    { is_toxic := true
      toxicity_level := lvl
      toxicity_categories := detectedCategories query
      rejection_reason := some (get_rejection_message lvl)
      safe_query := rewrite_query llm query lvl }
  else { is_toxic := false }

/-- `QueryAnalyzer.greetings` (a Python set; only membership and `any` are
used, so the order is irrelevant). -/
def greetings : List String :=
  ["hello", "hi", "hey", "greetings", "good morning", "good afternoon", "good evening"]

/-- `QueryAnalyzer.small_talk_phrases`. -/
def small_talk_phrases : List String :=
  ["how are you", "what\x27s up", "who are you", "what can you do", "tell me about yourself"]

/-- `QueryAnalyzer._is_greeting`. -/
def is_greeting (query : String) : Bool :=
  let clean := pyStripChars ['?', '!', '.', ','] (pyLower query)
  greetings.contains clean || greetings.any (fun g => pyStartsWith clean g)

/-- `QueryAnalyzer._is_small_talk`. -/
def is_small_talk (query : String) : Bool :=
  small_talk_phrases.any (fun p => strHasSub (pyLower query) p)

/-- The prompt of `QueryAnalyzer._generate_response`. -/
def generatePrompt (query : String) : String :=
  "You\x27re a professional CV search assistant. Respond to this user message in 1-2 sentences:\n\nUser: "
    ++ query ++ "\n\nProfessional Response:"

/-- `QueryAnalyzer._generate_response`: LLM response, stripped; an exception
from the collaborator yields the static fallback greeting. -/
def generate_response (llm : LLMModel) (query : String) : String :=
  match llm.invoke (generatePrompt query) with
  | .ok r => pyStrip r
  | .error _ => "Hello! I\x27m your CV search assistant. How can I help?"

/-- The pydantic `QueryResponse` model, with its field defaults. -/
structure QueryResponse where
  should_process : Bool := false
  immediate_response : Option String := none
  modified_query : Option String := none
  rejection_reason : Option String := none
  is_toxic : Bool := false
  toxicity_level : Option Nat := none
  toxicity_categories : List String := []
  is_greeting : Bool := false
  deriving Repr, DecidableEq

/-- `QueryAnalyzer.analyze`. -/
def analyze (llm : LLMModel) (query : String) : QueryResponse :=
  if pyStrip query = "" then
    { immediate_response := some "Please provide a search query about candidates."
      should_process := false }
  else if is_greeting query || is_small_talk query then
    { immediate_response := some (generate_response llm query)
      should_process := false
      is_greeting := true }
  else
    let toxicity := detect_toxicity llm query
    if toxicity.is_toxic then
      { is_toxic := true
        toxicity_level := some toxicity.toxicity_level
        toxicity_categories := toxicity.toxicity_categories
        rejection_reason := toxicity.rejection_reason
        modified_query := toxicity.safe_query
        should_process := toxicity.safe_query.isSome }
    else
      { should_process := true, modified_query := some query }

/- ------------------------------------------------------------------ -/
/- Intent extraction  (backend/rag/tools/intent.py)                    -/
/- ------------------------------------------------------------------ -/

/-- The `experience` sub-dict of an intent: optional `min`/`max` bounds
(a key that is absent or JSON `null` is `none`). -/
structure ExpRange where
  min : Option ℚ := none
  max : Option ℚ := none
  deriving Repr, DecidableEq

/-- The dict produced by `json.loads` on the model response, with the key
vocabulary `intent_rating_tool` reads (`parsed.get(...)` defaults shown).
`requested_fields` is `none` when the key is absent. -/
structure ParsedIntent where
  intent : Option String := none
  name : Option String := none
  skills : List String := []
  experience : ExpRange := {}
  roles : List String := []
  location : Option String := none
  education : List String := []
  certifications : List String := []
  projects : List String := []
  languages : List String := []
  confidence : ℚ := 0
  requested_fields : Option (List String) := none
  deriving Repr, DecidableEq

/-- The dict `intent_rating_tool` returns (requested_fields always present). -/
structure IntentDict where
  intent : Option String := none
  name : Option String := none
  skills : List String := []
  experience : ExpRange := {}
  roles : List String := []
  location : Option String := none
  education : List String := []
  certifications : List String := []
  projects : List String := []
  languages : List String := []
  confidence : ℚ := 0
  requested_fields : List String := []
  deriving Repr, DecidableEq

/-- Python truthiness of one extracted field value, as tested by the
defensive `requested_fields` recomputation (`if value:`, plus the
min/max-non-null refinement for `experience`). -/
def fieldTruthy (p : ParsedIntent) : String → Bool
  | "skills" => p.skills ≠ []
  | "experience" => p.experience.min.isSome || p.experience.max.isSome
  | "roles" => p.roles ≠ []
  | "location" => (truthyStr p.location).isSome
  | "education" => p.education ≠ []
  | "certifications" => p.certifications ≠ []
  | "projects" => p.projects ≠ []
  | "languages" => p.languages ≠ []
  | _ => false

/-- The defensively recomputed `requested_fields` list. -/
def recomputedFields (p : ParsedIntent) : List String :=
  ["skills", "experience", "roles", "location", "education", "certifications",
   "projects", "languages"].filter (fieldTruthy p)

/-- `parsed["requested_fields"] = parsed.get("requested_fields", requested_fields)`
and the final returned dict. -/
def parsedToDict (p : ParsedIntent) : IntentDict :=
  { intent := p.intent, name := p.name, skills := p.skills, experience := p.experience,
    roles := p.roles, location := p.location, education := p.education,
    certifications := p.certifications, projects := p.projects, languages := p.languages,
    confidence := p.confidence,
    requested_fields := p.requested_fields.getD (recomputedFields p) }

/-- The zero-confidence fallback dict returned when response parsing fails. -/
def fallbackIntentDict : IntentDict :=
  { intent := none, skills := [], experience := {}, roles := [], location := none,
    education := [], certifications := [], projects := [], languages := [],
    confidence := 0, requested_fields := [] }

/-- The extraction prompt of `intent_rating_tool` (field/format/example
scaffolding abbreviated: the prompt text is opaque to the pipeline). -/
def intentPrompt (query : String) : String :=
  "Analyze the following job candidate search query and extract structured information.\nQuery: "
    ++ query ++ "\nRespond ONLY with the JSON object, no other text or explanation."

/-- Python `s.find(c)` (first index or -1). -/
def pyFindChar (s : String) (c : Char) : Int :=
  match s.toList.findIdx? (· = c) with
  | some i => (i : Int)
  | none => -1

/-- Python `s.rfind(c)` (last index or -1). -/
def pyRFindChar (s : String) (c : Char) : Int :=
  match s.toList.reverse.findIdx? (· = c) with
  | some i => (s.toList.length : Int) - 1 - (i : Int)
  | none => -1

/-- Python `s[a:b]` slice semantics (negative indices count from the end,
then both endpoints clamp to `[0, len]`). -/
def pySlice (s : String) (a b : Int) : String :=
  let l := s.toList
  let n : Int := l.length
  let lo := max 0 (min n (if a < 0 then a + n else a))
  let hi := max 0 (min n (if b < 0 then b + n else b))
  if lo < hi then String.mk ((l.drop lo.toNat).take (hi - lo).toNat) else ""

/-- `response_text[response_text.find('{') : response_text.rfind('}') + 1]`. -/
def braceSpan (s : String) : String :=
  pySlice s (pyFindChar s '\x7b') (pyRFindChar s '\x7d' + 1)

/-- `intent_rating_tool`.  `decodeJson` models the `json.loads` library call
(returning `none` both on a JSON error and on a decoded value that is not an
intent-shaped object).  Faithful to the source control flow: the `"who is"`
short-circuit comes first; the `llm is None` guard raises `ValueError`; the
`llm.invoke` call sits OUTSIDE the `try`, so a collaborator exception
propagates out of the function; only the parsing stage is guarded by the
`try/except` that returns the zero-confidence fallback dict. -/
def intent_rating_tool (decodeJson : String → Option ParsedIntent)
    (llm : Option LLMModel) (query : String) : Except String IntentDict :=
  if pyStartsWith (pyLower query) "who is" then
    let name := pyStrip (strDrop 6 query)
    .ok { intent := some "GeneralInfo"
          name := if name = "" then none else some name
          skills := [], experience := {}, roles := [], location := none
          education := [], certifications := [], projects := [], languages := []
          confidence := 19/20
          requested_fields := ["name"] }
  else
    match llm with
    | none => .error "ValueError: LLM instance not set for intent tool."
    | some llm =>
      match llm.invoke (intentPrompt query) with
      | .error e => .error e
      | .ok responseText =>
        .ok (match decodeJson (braceSpan responseText) with
          | some parsed => parsedToDict parsed
          | none => fallbackIntentDict)

/- ------------------------------------------------------------------ -/
/- QueryPlanner  (backend/rag/tools/query_planner.py)                  -/
/- ------------------------------------------------------------------ -/

/-- The pydantic `IntentResult` model (`intent: str` is required; extra keys
such as `name` are ignored by pydantic's default config). -/
structure IntentResult where
  intent : String
  skills : List String := []
  experience : ExpRange := {}
  roles : List String := []
  location : Option String := none
  education : List String := []
  certifications : List String := []
  projects : List String := []
  languages : List String := []
  confidence : ℚ := 0
  requested_fields : List String := []
  deriving Repr, DecidableEq

/-- `IntentResult(**intent_dict)`: pydantic validation — a `None` value for
the required `intent: str` field raises `ValidationError`. -/
def mkIntentResult (d : IntentDict) : Except String IntentResult :=
  match d.intent with
  | none => .error "ValidationError: intent - none is not an allowed value"
  | some s =>
    .ok { intent := s, skills := d.skills, experience := d.experience, roles := d.roles,
          location := d.location, education := d.education,
          certifications := d.certifications, projects := d.projects,
          languages := d.languages, confidence := d.confidence,
          requested_fields := d.requested_fields }

/-- A Pinecone filter predicate value: `{"$in": […]}`, `{"$gte"/"$lte": …}`,
or `{"$eq": …}`. -/
inductive FilterVal where
  | inList (vals : List String)
  | range (gte lte : Option ℚ)
  | equal (v : String)
  deriving Repr, DecidableEq

/-- `build_skill_filters`. -/
def build_skill_filters (skills : List String) : List (String × FilterVal) :=
  if skills = [] then [] else [("skills.technical", .inList (skills.map pyLower))]

/-- `build_experience_filters` (`"min" in exp and exp["min"] is not None`
collapses to presence of the modelled bound). -/
def build_experience_filters (exp : ExpRange) : List (String × FilterVal) :=
  if exp.min.isSome || exp.max.isSome then [("experience_years", .range exp.min exp.max)]
  else []

/-- `build_location_filter`. -/
def build_location_filter (location : Option String) : List (String × FilterVal) :=
  match truthyStr location with
  | none => []
  | some l => [("location", .equal l)]

/-- `build_roles_filter`. -/
def build_roles_filter (roles : List String) : List (String × FilterVal) :=
  if roles = [] then [] else [("current_role", .inList (roles.map pyLower))]

/-- `build_education_filter`. -/
def build_education_filter (education : List String) : List (String × FilterVal) :=
  if education = [] then [] else [("education", .inList (education.map pyLower))]

/-- `build_certifications_filter`. -/
def build_certifications_filter (certs : List String) : List (String × FilterVal) :=
  if certs = [] then [] else [("certifications", .inList (certs.map pyLower))]

/-- `build_projects_filter`. -/
def build_projects_filter (projects : List String) : List (String × FilterVal) :=
  if projects = [] then [] else [("projects", .inList (projects.map pyLower))]

/-- `build_languages_filter`. -/
def build_languages_filter (langs : List String) : List (String × FilterVal) :=
  if langs = [] then [] else [("languages", .inList (langs.map pyLower))]

/-- Python `dict.update` on an insertion-ordered association list. -/
def dictUpdate (d addition : List (String × FilterVal)) : List (String × FilterVal) :=
  addition.foldl (fun acc kv =>
    if acc.any (fun p => p.1 = kv.1) then acc.map (fun p => if p.1 = kv.1 then kv else p)
    else acc ++ [kv]) d

/-- The pydantic `QueryPlan` model with its field defaults. -/
structure QueryPlan where
  query_type : String
  metadata_filters : List (String × FilterVal) := []
  suggested_top_k : Int := 5
  requires_reranking : Bool := true
  route : String := "process"
  rejection_reason : Option String := none
  handling_instructions : Option String := none
  requested_fields : List String := []
  deriving Repr, DecidableEq

/-- The pydantic validation on `QueryPlan`: the two `@validator`s plus the
`Field(..., ge=1, le=20)` bound on `suggested_top_k`. -/
def validQueryPlan (p : QueryPlan) : Bool :=
  ["MetadataQuery", "CVContentQuery", "MultiHopQuery", "GeneralQuery", "BlockedQuery"].contains p.query_type
    && ["process", "clarify", "reject", "redirect"].contains p.route
    && decide (1 ≤ p.suggested_top_k) && decide (p.suggested_top_k ≤ 20)

/-- `QueryPlan(...)` construction: validation failure raises. -/
def mkQueryPlan (p : QueryPlan) : Except String QueryPlan :=
  if validQueryPlan p then .ok p else .error "ValidationError: QueryPlan"

/-- The keys of the analyzer output consumed by the planner
(`analysis.get("is_toxic")`, `analysis.get("rejection_reason")`,
`analysis.get("requires_general_knowledge")`). -/
structure AnalysisDict where
  is_toxic : Bool := false
  rejection_reason : Option String := none
  requires_general_knowledge : Bool := false
  deriving Repr, DecidableEq

/-- The `# Build filters only for requested fields` block of
`query_planner_tool`: the successive `filters.update(...)` calls, each guarded
by membership in `requested_fields`. -/
def plannerFilters (intent : IntentResult) : List (String × FilterVal) :=
  let requested_fields := intent.requested_fields
  let filters : List (String × FilterVal) := []
  let filters := if "skills" ∈ requested_fields then dictUpdate filters (build_skill_filters intent.skills) else filters
  let filters := if "experience" ∈ requested_fields then dictUpdate filters (build_experience_filters intent.experience) else filters
  let filters := if "location" ∈ requested_fields then dictUpdate filters (build_location_filter intent.location) else filters
  let filters := if "roles" ∈ requested_fields then dictUpdate filters (build_roles_filter intent.roles) else filters
  let filters := if "education" ∈ requested_fields then dictUpdate filters (build_education_filter intent.education) else filters
  let filters := if "certifications" ∈ requested_fields then dictUpdate filters (build_certifications_filter intent.certifications) else filters
  let filters := if "projects" ∈ requested_fields then dictUpdate filters (build_projects_filter intent.projects) else filters
  let filters := if "languages" ∈ requested_fields then dictUpdate filters (build_languages_filter intent.languages) else filters
  filters

/-- The filter-building main path of `query_planner_tool` (inside its `try`). -/
def plannerMain (intent : IntentResult) : Except String QueryPlan :=
  let requested_fields := intent.requested_fields
  let filters := plannerFilters intent
  let q_type := if filters = [] then "GeneralQuery"
    else if filters.length = 1 then "MetadataQuery"
    else "MultiHopQuery"
  let suggested_k : Int := 5 + pyIntTrunc (10 * intent.confidence)
  let rerank := if 0 < filters.length then true else false
  mkQueryPlan { query_type := q_type, metadata_filters := filters,
                suggested_top_k := suggested_k, requires_reranking := rerank,
                route := "process", requested_fields := requested_fields }

/-- The `try` body of `query_planner_tool`. -/
def plannerBody (intent : IntentResult) (analysis : Option AnalysisDict) : Except String QueryPlan :=
  match analysis with
  | some a =>
    if a.is_toxic then
      mkQueryPlan { query_type := "BlockedQuery", route := "reject",
                    rejection_reason := a.rejection_reason,
                    handling_instructions := some "Query contained inappropriate language",
                    requested_fields := [] }
    else if a.requires_general_knowledge then
      mkQueryPlan { query_type := "GeneralQuery", route := "redirect",
                    handling_instructions := some "Focus on CV-related aspects",
                    requested_fields := [] }
    else plannerMain intent
  | none => plannerMain intent

/-- `query_planner_tool`: any exception inside the `try` degrades to the
fallback plan. -/
def query_planner_tool (intent : IntentResult) (analysis : Option AnalysisDict) : QueryPlan :=
  match plannerBody intent analysis with
  | .ok p => p
  | .error _ =>
    { query_type := "GeneralQuery", route := "process",
      handling_instructions := some "Fallback plan due to error",
      requested_fields := [] }

/-- The property that a built metadata filter key can only arise from a
field listed in `intent.requested_fields` (one disjunct per builder). -/
def filterFromRequested (i : IntentResult) (kv : String × FilterVal) : Prop :=
  (kv.1 = "skills.technical" ∧ "skills" ∈ i.requested_fields)
  ∨ (kv.1 = "experience_years" ∧ "experience" ∈ i.requested_fields)
  ∨ (kv.1 = "location" ∧ "location" ∈ i.requested_fields)
  ∨ (kv.1 = "current_role" ∧ "roles" ∈ i.requested_fields)
  ∨ (kv.1 = "education" ∧ "education" ∈ i.requested_fields)
  ∨ (kv.1 = "certifications" ∧ "certifications" ∈ i.requested_fields)
  ∨ (kv.1 = "projects" ∧ "projects" ∈ i.requested_fields)
  ∨ (kv.1 = "languages" ∧ "languages" ∈ i.requested_fields)

/- ------------------------------------------------------------------ -/
/- Pipeline orchestrator  (backend/rag/pipeline.py)                    -/
/- ------------------------------------------------------------------ -/

/-- The external collaborators of one pipeline run.  `retrieve` models
`pinecone_retriever_tool(query, filters, top_k, llm)` (which catches its own
errors and returns a list); `summarize` models `candidate_summarizer_tool`;
`synthesize` models `synthesizer_tool` (its structured per-candidate dicts
are opaque strings here); `recentMemory` models `load_recent_memory`
(`none` when no memory store is configured); `memorySearch` models what
`ContextAggregator._fetch_memory` returns inside aggregation. -/
structure PipelineEnv where
  llm : LLMModel
  decodeIntentJson : String → Option ParsedIntent
  retrieve : String → List (String × FilterVal) → Nat → List SearchResult
  summarize : AggOutput → String → String
  synthesize : String → List SearchResult → List String
  recentMemory : Option (List (String × String)) := none
  memorySearch : List SearchResult := []
  currentYear : Int := 2024

/-- The pydantic `PipelineResponse` model (the optional `debug` trace mapping
is not modelled; no claim observes it). -/
structure PipelineResponse where
  success : Bool
  response : Option String := none
  candidates : Option (List String) := none
  sources : Option (List String) := none
  error : Option String := none
  deriving Repr, DecidableEq

/-- Step 1: the memory context text (`"Q: …\nA: …"` blocks over the reversed
recent memories; exceptions in loading degrade to the empty string, which the
collaborator model absorbs). -/
def memoryContextText (env : PipelineEnv) : String :=
  match env.recentMemory with
  | none => ""
  | some ms =>
    if ms = [] then ""
    else String.intercalate "\n" (ms.reverse.map (fun m => "Q: " ++ m.1 ++ "\nA: " ++ m.2))

/-- `combined_query`. -/
def combinedQuery (env : PipelineEnv) (userQuery : String) : String :=
  let m := memoryContextText env
  if m ≠ "" then m ++ "\n\nNew Query: " ++ userQuery else userQuery

/-- Python `a or b` for an optional string `a` (a present-but-empty string is
falsy). -/
def pyOrStr (a : Option String) (b : String) : String :=
  match truthyStr a with
  | some s => s
  | none => b

/-- Step 2 of the pipeline: `analyzer.analyze(combined_query)`. -/
def pipelineAnalysis (env : PipelineEnv) (userQuery : String) : QueryResponse :=
  analyze env.llm (combinedQuery env userQuery)

/-- `processed_query = analysis.modified_query or combined_query`. -/
def pipelineProcessedQuery (env : PipelineEnv) (userQuery : String) : String :=
  pyOrStr (pipelineAnalysis env userQuery).modified_query (combinedQuery env userQuery)

/-- Step 3: `intent_rating_tool(processed_query)` with the injected LLM. -/
def pipelineIntent (env : PipelineEnv) (userQuery : String) : Except String IntentDict :=
  intent_rating_tool env.decodeIntentJson (some env.llm) (pipelineProcessedQuery env userQuery)

/-- The retrieval collaborator call of step 5, as invoked by the
orchestrator: `pinecone_retriever_tool(query=processed_query, filters=…,
top_k=top_k, llm=llm)`. -/
def pipelineRetrieve (env : PipelineEnv) (userQuery : String) (topK : Nat) :
    List (String × FilterVal) → List SearchResult :=
  fun f => env.retrieve (pipelineProcessedQuery env userQuery) f topK

/-- Step 4: `query_planner_tool(intent_result.dict(), analysis.dict(), llm)`.
The analyzer dict has no `requires_general_knowledge` key, so the planner's
`.get` on it is always falsy. -/
def pipelinePlan (env : PipelineEnv) (userQuery : String) (ir : IntentResult) : QueryPlan :=
  query_planner_tool ir (some
    { is_toxic := (pipelineAnalysis env userQuery).is_toxic
      rejection_reason := (pipelineAnalysis env userQuery).rejection_reason
      requires_general_knowledge := false })

/-- Step 5 of the pipeline (lines 137–152): first retrieval with the plan's
filters, retried once with `{}` iff the result was empty and the filters
non-empty.  The second component records the filter argument of every
retrieval invocation, in order. -/
def retrievalStage (retrieve : List (String × FilterVal) → List SearchResult)
    (filters : List (String × FilterVal)) :
    List SearchResult × List (List (String × FilterVal)) :=
  let results := retrieve filters
  if results = [] ∧ filters ≠ [] then (retrieve [], [filters, []])
  else (results, [filters])

/-- The generic terminal-failure response of the orchestrator's outer
`except` clause. -/
def genericErrorResponse (e : String) : PipelineResponse :=
  { success := false, error := some e
    response := some "An error occurred while processing your query" }

/-- `run_cv_query_pipeline`.  The best-effort memory save (step 9) has no
effect on the returned value and is not modelled; modelled exceptions
(`Except.error` from the intent stage) are converted by the outer `except`
into the generic failure response. -/
def run_cv_query_pipeline (env : PipelineEnv) (userQuery : String) (topK : Nat := 5) :
    PipelineResponse :=
  let analysis := pipelineAnalysis env userQuery
  if analysis.immediate_response.isSome then
    { success := true, response := analysis.immediate_response }
  else if analysis.is_toxic ∧ ¬ analysis.should_process then
    { success := false, error := analysis.rejection_reason
      response := some "Please rephrase your query professionally" }
  else
    let processedQuery := pipelineProcessedQuery env userQuery
    match pipelineIntent env userQuery with
    | .error e => genericErrorResponse e
    | .ok intentDict =>
      match mkIntentResult intentDict with
      | .error e => genericErrorResponse e
      | .ok intentResult =>
        if intentResult.confidence < 3/10 then
          { success := false, error := some "Low intent confidence"
            response := some "Could not understand your query. Please try rephrasing." }
        else
          let plan := pipelinePlan env userQuery intentResult
          if plan.route = "reject" then
            { success := false, error := plan.rejection_reason
              response := some "Query cannot be processed" }
          else
            let rr := retrievalStage (pipelineRetrieve env userQuery topK)
              plan.metadata_filters
            if rr.1 = [] then
              { success := true, response := some "No matching candidates found" }
            else
              let context := aggregate_contexts rr.1 processedQuery topK none
                env.memorySearch env.currentYear
              let answer := env.summarize context processedQuery
              let candidates := env.synthesize answer rr.1
              let sources := rr.1.map (fun r => (r.metadata.source).getD "Unknown source")
              { success := true, response := some answer
                candidates := some candidates, sources := some sources }

/- ------------------------------------------------------------------ -/
/- Concrete fixtures used by the verification theorems below           -/
/- ------------------------------------------------------------------ -/

/-- A collaborator model whose every invocation answers with a fixed
professional rewrite. -/
def llmRewriteOK : LLMModel := ⟨fun _ => .ok "professional candidates"⟩

/-- A collaborator model whose every invocation raises. -/
def llmFailing : LLMModel := ⟨fun _ => .error "LLM failure"⟩

/-- A collaborator model answering with text containing no JSON object. -/
def llmNoJson : LLMModel := ⟨fun _ => .ok "no json here"⟩

/-- A `json.loads` model that fails on every input. -/
def decodeNone : String → Option ParsedIntent := fun _ => none

/-- Shared metadata (same email) for the deduplication fixtures. -/
def mdShared : Metadata := { EMAIL := some "jane@example.com", NAME := some "Jane" }

/-- First search result carrying `mdShared`. -/
def resA : SearchResult := { metadata := mdShared, text := some "chunk one", score := 1/2 }

/-- Second search result carrying `mdShared`. -/
def resB : SearchResult := { metadata := mdShared, text := some "chunk two", score := 1/4 }

/-- A plain aggregator (no query, no requested fields, no memory). -/
def aggPlain : ContextAggregator :=
  { query := "", requested_fields := [], memoryResults := [], currentYear := 2024 }

/-- A 2-year senior position. -/
def jobShort : Job := { TITLE := some "Senior Engineer", DURATION := some "2020 - 2022" }

/-- The same position with a 4-year duration (same end year). -/
def jobLong : Job := { TITLE := some "Senior Engineer", DURATION := some "2018 - 2022" }

/-- A low-scoring search result. -/
def resLow : SearchResult := { metadata := {}, text := some "low", score := 0 }

/-- A high-scoring search result. -/
def resHigh : SearchResult := { metadata := {}, text := some "high", score := 1 }

/-- A skills intent whose confidence (2.0) drives `suggested_top_k` to 25. -/
def intentHighConfidence : IntentResult :=
  { intent := "SkillMatch", skills := ["python"], confidence := 2,
    requested_fields := ["skills"] }

/-- A skills-only request with several other populated fields. -/
def intentSkillsOnly : IntentResult :=
  { intent := "SkillMatch", skills := ["Python"], roles := ["developer"],
    location := some "Kathmandu", confidence := 1, requested_fields := ["skills"] }

/-- The decoded intent used by the pipeline fixtures. -/
def parsedSkillIntent : ParsedIntent :=
  { intent := some "SkillMatch", skills := ["Python"], confidence := 1,
    requested_fields := some ["skills"] }

/-- A pipeline environment whose retriever finds nothing. -/
def envNoMatches : PipelineEnv :=
  { llm := ⟨fun _ => .ok "ok"⟩
    decodeIntentJson := fun _ => some parsedSkillIntent
    retrieve := fun _ _ _ => []
    summarize := fun _ _ => "summary"
    synthesize := fun _ _ => []
    recentMemory := none
    memorySearch := []
    currentYear := 2024 }

/-- The intent dict the fixture pipeline's intent stage produces. -/
def skillIntentDict : IntentDict := parsedToDict parsedSkillIntent

/-- The validated `IntentResult` of the fixture pipeline. -/
def skillIntentResult : IntentResult :=
  { intent := "SkillMatch", skills := ["Python"], confidence := 1,
    requested_fields := ["skills"] }

/- ------------------------------------------------------------------ -/
/- Helper lemmas                                                       -/
/- ------------------------------------------------------------------ -/

/-- Membership in the `pyDedup` fold. -/
theorem pyDedup_go_mem (l : List String) : ∀ (acc : List String) (x : String),
    (x ∈ l.foldl (fun acc x => if x ∈ acc then acc else acc ++ [x]) acc) ↔ x ∈ acc ∨ x ∈ l := by
  induction l with
  | nil => simp
  | cons h t ih =>
    intro acc x
    simp only [List.foldl_cons]
    by_cases hm : h ∈ acc
    · rw [if_pos hm, ih]
      simp only [List.mem_cons]
      constructor
      · rintro (hx | hx) <;> tauto
      · rintro (hx | rfl | hx) <;> tauto
    · rw [if_neg hm, ih]
      simp only [List.mem_append, List.mem_singleton, List.mem_cons]
      tauto

/-- `pyDedup` preserves membership. -/
theorem pyDedup_mem (l : List String) (x : String) : x ∈ pyDedup l ↔ x ∈ l := by
  have := pyDedup_go_mem l [] x
  simpa [pyDedup] using this

/-- Nodup invariant of the `pyDedup` fold. -/
theorem pyDedup_go_nodup (l : List String) : ∀ acc : List String, acc.Nodup →
    (l.foldl (fun acc x => if x ∈ acc then acc else acc ++ [x]) acc).Nodup := by
  induction l with
  | nil => intro acc h; simpa using h
  | cons h t ih =>
    intro acc hacc
    simp only [List.foldl_cons]
    by_cases hm : h ∈ acc
    · rw [if_pos hm]; exact ih acc hacc
    · rw [if_neg hm]
      refine ih _ ?_
      rw [List.nodup_append]
      exact ⟨hacc, List.nodup_singleton h, by simpa [List.disjoint_singleton] using hm⟩

/-- `pyDedup` output has no duplicates. -/
theorem pyDedup_nodup (l : List String) : (pyDedup l).Nodup :=
  pyDedup_go_nodup l [] (by simp)

/-- Round-half-to-even is monotone. -/
theorem rhe_mono {q r : ℚ} (h : q ≤ r) : rhe q ≤ rhe r := by
  have hf : ⌊q⌋ ≤ ⌊r⌋ := Int.floor_le_floor h
  by_cases heq : ⌊q⌋ = ⌊r⌋
  · have h1 : ((⌊q⌋ : ℚ)) = ((⌊r⌋ : ℚ)) := by exact_mod_cast heq
    have hfr : q - (⌊q⌋ : ℚ) ≤ r - (⌊r⌋ : ℚ) := by linarith
    unfold rhe
    split_ifs <;> first | omega | (exfalso; linarith)
  · have h1 : rhe q ≤ ⌊q⌋ + 1 := by unfold rhe; split_ifs <;> omega
    have h2 : ⌊r⌋ ≤ rhe r := by unfold rhe; split_ifs <;> omega
    omega

/-- `round(·, 2)` is monotone. -/
theorem pyRound2_mono {q r : ℚ} (h : q ≤ r) : pyRound2 q ≤ pyRound2 r := by
  unfold pyRound2
  have h1 : rhe (q * 100) ≤ rhe (r * 100) := rhe_mono (by linarith)
  have h2 : ((rhe (q * 100) : ℚ)) ≤ ((rhe (r * 100) : ℚ)) := by exact_mod_cast h1
  linarith

/- ------------------------------------------------------------------ -/
/- C1                                                                  -/
/- ------------------------------------------------------------------ -/

/-- C1: `parse_duration` accepts `"YYYY - present"` (returning
`(YYYY, currentYear)`) and `"YYYY - YYYY"` (returning the two years), but a
string of the spec's third shape `"MM/YYYY - MM/YYYY"` returns `none`: the
`'-'` branch runs first, its `int("MM/YYYY")` raises, and the exception
handler returns `None` before the `'/'` branch can be reached. -/
theorem parse_duration_shapes :
    (∀ cy : Int, parse_duration cy "2019 - present" = some (2019, cy)) ∧
    (∀ cy : Int, parse_duration cy "2016 - 2020" = some (2016, 2020)) ∧
    (∀ cy : Int, parse_duration cy "01/2020 - 06/2022" = none) :=
  ⟨fun _ => rfl, fun _ => rfl, fun _ => rfl⟩

/- ------------------------------------------------------------------ -/
/- C9                                                                  -/
/- ------------------------------------------------------------------ -/

/-- C9 counterexample: on the empty input the `aggregate_contexts` entry
point returns the empty list — an empty collection, not the sentinel
string the claim requires. -/
theorem aggregate_contexts_empty_is_list :
    aggregate_contexts [] "any query" 10 none [] 2024 = AggOutput.emptyList ∧
    AggOutput.emptyList ≠ AggOutput.report "No matching candidates found." :=
  ⟨rfl, by decide⟩

/-- C9 (amended): `ContextAggregator.aggregate` on the empty input returns
the `"No matching candidates found."` sentinel string, while the
`aggregate_contexts` tool entry point short-circuits and returns the empty
list instead. -/
theorem aggregate_empty_sentinel (query : String) (rf : Option (List String))
    (mem : List SearchResult) (cy : Int) :
    aggregate (mkContextAggregator query rf mem cy) [] = "No matching candidates found." ∧
    aggregate_contexts [] query 10 rf mem cy = AggOutput.emptyList :=
  ⟨rfl, rfl⟩

/- ------------------------------------------------------------------ -/
/- C3                                                                  -/
/- ------------------------------------------------------------------ -/

/-- C3 counterexample: an exception in the LLM invocation itself is NOT
caught inside `intent_rating_tool` — it propagates out instead of producing
the zero-confidence fallback. -/
theorem intent_tool_propagates_llm_error :
    intent_rating_tool decodeNone (some llmFailing) "find python developers"
      = .error "LLM failure" := rfl

/-- C3 (amended): a failure of response parsing (here: `json.loads` failing
on the extracted brace span) is caught inside `intent_rating_tool` and
yields the zero-confidence fallback dict (confidence 0, all collections
empty, `requested_fields` empty); but a failure of the LLM invocation
itself propagates out of the function. -/
theorem intent_tool_parse_fallback (decodeJson : String → Option ParsedIntent)
    (llm : LLMModel) (query response : String)
    (hwho : pyStartsWith (pyLower query) "who is" = false)
    (hinv : llm.invoke (intentPrompt query) = .ok response)
    (hdec : decodeJson (braceSpan response) = none) :
    intent_rating_tool decodeJson (some llm) query = .ok fallbackIntentDict ∧
    fallbackIntentDict.confidence = 0 ∧
    fallbackIntentDict.requested_fields = [] ∧
    fallbackIntentDict.skills = [] ∧ fallbackIntentDict.roles = [] ∧
    fallbackIntentDict.education = [] ∧ fallbackIntentDict.certifications = [] ∧
    fallbackIntentDict.projects = [] ∧ fallbackIntentDict.languages = [] ∧
    fallbackIntentDict.experience = { min := none, max := none } ∧
    (∀ e, llm.invoke (intentPrompt query) = .error e →
      intent_rating_tool decodeJson (some llm) query = .error e) := by
  refine ⟨?_, rfl, rfl, rfl, rfl, rfl, rfl, rfl, rfl, rfl, ?_⟩
  · unfold intent_rating_tool
    rw [if_neg (by simp [hwho])]
    simp only [hinv, hdec]
  · intro e he
    unfold intent_rating_tool
    rw [if_neg (by simp [hwho])]
    simp only [he]

/-- C3 witness: the amended fallback behaviour at a concrete query, model
response and failing decoder. -/
theorem intent_tool_parse_fallback_witness :
    pyStartsWith (pyLower "find python developers") "who is" = false ∧
    llmNoJson.invoke (intentPrompt "find python developers") = .ok "no json here" ∧
    decodeNone (braceSpan "no json here") = none ∧
    intent_rating_tool decodeNone (some llmNoJson) "find python developers"
      = .ok fallbackIntentDict :=
  ⟨by decide, rfl, rfl,
    (intent_tool_parse_fallback decodeNone llmNoJson "find python developers"
      "no json here" (by decide) rfl rfl).1⟩

/- ------------------------------------------------------------------ -/
/- C2                                                                  -/
/- ------------------------------------------------------------------ -/

/-- C2 counterexample: a mildly toxic query whose LLM rewrite succeeds makes
`analyze` return a result with `is_toxic = true` AND `should_process = true`
with `modified_query` set — two of the claim's three mutually exclusive
conditions hold at once. -/
theorem analyze_toxic_and_processable :
    (analyze llmRewriteOK "stupid query").is_toxic = true ∧
    (analyze llmRewriteOK "stupid query").should_process = true ∧
    (analyze llmRewriteOK "stupid query").modified_query = some "professional candidates" :=
  ⟨rfl, rfl, rfl⟩

/-- C2 (amended): after `analyze`, exactly one of
{immediate_response present; should_process true with modified_query set AND
is_toxic false; is_toxic true} holds — the toxicity flag and a processable
rewrite may co-occur, so the non-toxic qualifier on the middle condition is
required. -/
theorem analyze_outcome_trichotomy (llm : LLMModel) (query : String) :
    ((analyze llm query).immediate_response.isSome
      ∧ ¬((analyze llm query).should_process = true
          ∧ (analyze llm query).modified_query.isSome
          ∧ (analyze llm query).is_toxic = false)
      ∧ (analyze llm query).is_toxic = false)
    ∨ (¬(analyze llm query).immediate_response.isSome
      ∧ ((analyze llm query).should_process = true
          ∧ (analyze llm query).modified_query.isSome
          ∧ (analyze llm query).is_toxic = false)
      ∧ (analyze llm query).is_toxic = false)
    ∨ (¬(analyze llm query).immediate_response.isSome
      ∧ ¬((analyze llm query).should_process = true
          ∧ (analyze llm query).modified_query.isSome
          ∧ (analyze llm query).is_toxic = false)
      ∧ (analyze llm query).is_toxic = true) := by
  unfold analyze
  split_ifs with h1 h2
  · simp
  · simp
  · by_cases h3 : (detect_toxicity llm query).is_toxic = true <;> simp [h3]

/- ------------------------------------------------------------------ -/
/- C7                                                                  -/
/- ------------------------------------------------------------------ -/

/-- The `if`-guarded max-accumulation equals a fold of `max` over the
filtered severities. -/
theorem foldl_if_max_eq (f : (ToxPattern × Nat × String) → Bool) :
    ∀ (l : List (ToxPattern × Nat × String)) (a : Nat),
      l.foldl (fun acc p => if f p then max acc p.2.1 else acc) a
        = ((l.filter f).map (fun p => p.2.1)).foldl max a := by
  intro l
  induction l with
  | nil => intro a; rfl
  | cons h t ih => intro a; by_cases hf : f h <;> simp [hf, ih]

/-- The seed of a `max`-fold bounds the fold. -/
theorem le_foldl_max : ∀ (l : List Nat) (a : Nat), a ≤ l.foldl max a := by
  intro l
  induction l with
  | nil => simp
  | cons h t ih => intro a; exact le_trans (le_max_left a h) (ih (max a h))

/-- Every member of the list bounds a `max`-fold from below. -/
theorem mem_le_foldl_max : ∀ (l : List Nat) (a x : Nat), x ∈ l → x ≤ l.foldl max a := by
  intro l
  induction l with
  | nil => simp
  | cons h t ih =>
    intro a x hx
    rcases List.mem_cons.mp hx with rfl | hx
    · exact le_trans (le_max_right a x) (le_foldl_max t _)
    · exact ih _ x hx

/-- `List.max?` of a nonempty Nat list equals the zero-seeded `max` fold. -/
theorem foldl_max_zero_max? (l : List Nat) (hl : l ≠ []) :
    l.max? = some (l.foldl max 0) := by
  cases l with
  | nil => simp at hl
  | cons x xs => simp [List.max?, List.foldl_cons, Nat.zero_max]

/-- `detectedLevel` as a fold of `max` over the matching rules. -/
theorem detectedLevel_eq (q : String) :
    detectedLevel q
      = ((toxic_patterns.filter (fun p => patternMatches p.1 q)).map (fun p => p.2.1)).foldl max 0 :=
  foldl_if_max_eq _ toxic_patterns 0

/-- When at least one rule matches, `detectedLevel` is the maximum of the
matched severities. -/
theorem detectedLevel_max? (q : String)
    (hm : toxic_patterns.filter (fun p => patternMatches p.1 q) ≠ []) :
    ((toxic_patterns.filter (fun p => patternMatches p.1 q)).map (fun p => p.2.1)).max?
      = some (detectedLevel q) := by
  rw [detectedLevel_eq]
  exact foldl_max_zero_max? _ (by simpa using hm)

/-- A matching rule makes the detected level positive. -/
theorem detectedLevel_pos (q : String)
    (hm : toxic_patterns.filter (fun p => patternMatches p.1 q) ≠ []) :
    0 < detectedLevel q := by
  rw [detectedLevel_eq]
  obtain ⟨p, hp⟩ := List.exists_mem_of_ne_nil _ hm
  have hmem : p ∈ toxic_patterns := (List.mem_filter.mp hp).1
  have hall : ∀ r ∈ toxic_patterns, 1 ≤ r.2.1 := by decide
  have hx : p.2.1 ∈ (toxic_patterns.filter (fun p => patternMatches p.1 q)).map (fun p => p.2.1) :=
    List.mem_map_of_mem _ hp
  exact lt_of_lt_of_le (hall p hmem) (mem_le_foldl_max _ 0 _ hx)

/-- Reduction of `_detect_toxicity` when some rule matched. -/
theorem detect_toxicity_pos (llm : LLMModel) (q : String) (hpos : 0 < detectedLevel q) :
    detect_toxicity llm q =
      { is_toxic := true
        toxicity_level := detectedLevel q
        toxicity_categories := detectedCategories q
        rejection_reason := some (get_rejection_message (detectedLevel q))
        safe_query := rewrite_query llm q (detectedLevel q) } := by
  unfold detect_toxicity
  rw [if_pos hpos]

/-- Reduction of `analyze` on the toxic path. -/
theorem analyze_toxic_branch (llm : LLMModel) (q : String)
    (hq : pyStrip q ≠ "") (hg : is_greeting q = false) (hs : is_small_talk q = false)
    (hpos : 0 < detectedLevel q) :
    analyze llm q =
      { is_toxic := true
        toxicity_level := some (detectedLevel q)
        toxicity_categories := detectedCategories q
        rejection_reason := some (get_rejection_message (detectedLevel q))
        modified_query := rewrite_query llm q (detectedLevel q)
        should_process := (rewrite_query llm q (detectedLevel q)).isSome } := by
  unfold analyze
  rw [if_neg hq, if_neg (by simp [hg, hs])]
  simp [detect_toxicity_pos llm q hpos]

/-- C7 counterexample: `"hello stupid"` matches the mild profanity rule, but
because it is also a greeting, `analyze` answers on the greeting path with
`toxicity_level = none` and `is_toxic = false` — not the maximum matched
severity the claim requires for every rule-matching query. -/
theorem analyze_greeting_bypasses_toxicity :
    toxic_patterns.filter (fun p => patternMatches p.1 "hello stupid") ≠ [] ∧
    ((toxic_patterns.filter (fun p => patternMatches p.1 "hello stupid")).map (fun p => p.2.1)).max?
      = some MILD ∧
    (analyze llmRewriteOK "hello stupid").toxicity_level = none ∧
    (analyze llmRewriteOK "hello stupid").is_toxic = false :=
  ⟨by decide, by decide, rfl, rfl⟩

/-- C7 (amended): for every non-blank query that is neither a greeting nor
small talk and matches at least one toxicity rule, the analysis result's
toxicity_level is the maximum severity across all matching rules, the
matched category tags accumulate into a set, should_process holds iff the
rewrite produced a non-null safe query, and is_toxic is set. -/
theorem analyze_toxicity_max_and_rewrite (llm : LLMModel) (query : String)
    (hq : pyStrip query ≠ "")
    (hg : is_greeting query = false)
    (hs : is_small_talk query = false)
    (hm : toxic_patterns.filter (fun p => patternMatches p.1 query) ≠ []) :
    (analyze llm query).is_toxic = true ∧
    (analyze llm query).toxicity_level
      = ((toxic_patterns.filter (fun p => patternMatches p.1 query)).map (fun p => p.2.1)).max? ∧
    (∀ c, c ∈ (analyze llm query).toxicity_categories
      ↔ ∃ p ∈ toxic_patterns, patternMatches p.1 query ∧ p.2.2 = c) ∧
    ((analyze llm query).should_process = true
      ↔ rewrite_query llm query (detectedLevel query) ≠ none) := by
  have hpos := detectedLevel_pos query hm
  rw [analyze_toxic_branch llm query hq hg hs hpos]
  refine ⟨rfl, ?_, ?_, ?_⟩
  · rw [detectedLevel_max? query hm]
  · intro c
    show c ∈ detectedCategories query ↔ _
    unfold detectedCategories
    rw [pyDedup_mem]
    simp only [List.mem_map, List.mem_filter]
    constructor
    · rintro ⟨p, ⟨hp, hmt⟩, rfl⟩
      exact ⟨p, hp, hmt, rfl⟩
    · rintro ⟨p, hp, hmt, rfl⟩
      exact ⟨p, ⟨hp, hmt⟩, rfl⟩
  · show (rewrite_query llm query (detectedLevel query)).isSome = true ↔ _
    exact Option.isSome_iff_ne_none

/-- C7 witness: the amended statement at the concrete severe query
`"murder"` with a failing rewrite collaborator; the severe-tier match with a
`none` rewrite yields `should_process = false` and `is_toxic = true`. -/
theorem analyze_toxicity_witness :
    pyStrip "murder" ≠ "" ∧ is_greeting "murder" = false ∧
    is_small_talk "murder" = false ∧
    toxic_patterns.filter (fun p => patternMatches p.1 "murder") ≠ [] ∧
    ((analyze llmFailing "murder").is_toxic = true ∧
      (analyze llmFailing "murder").toxicity_level
        = ((toxic_patterns.filter (fun p => patternMatches p.1 "murder")).map (fun p => p.2.1)).max? ∧
      (∀ c, c ∈ (analyze llmFailing "murder").toxicity_categories
        ↔ ∃ p ∈ toxic_patterns, patternMatches p.1 "murder" ∧ p.2.2 = c) ∧
      ((analyze llmFailing "murder").should_process = true
        ↔ rewrite_query llmFailing "murder" (detectedLevel "murder") ≠ none)) ∧
    (analyze llmFailing "murder").should_process = false :=
  ⟨by decide, by decide, by decide, by decide,
    analyze_toxicity_max_and_rewrite llmFailing "murder" (by decide) (by decide)
      (by decide) (by decide), rfl⟩

/- ------------------------------------------------------------------ -/
/- C5                                                                  -/
/- ------------------------------------------------------------------ -/

/-- `dictUpdate` preserves a pointwise property of its entries. -/
theorem dictUpdate_pres (P : String × FilterVal → Prop) :
    ∀ (add d : List (String × FilterVal)), (∀ kv ∈ d, P kv) → (∀ kv ∈ add, P kv) →
      ∀ kv ∈ dictUpdate d add, P kv := by
  intro add
  induction add with
  | nil => intro d hd _; simpa [dictUpdate] using hd
  | cons a t ih =>
    intro d hd ha
    have hstep : ∀ kv ∈ (if d.any (fun p => p.1 = a.1)
        then d.map (fun p => if p.1 = a.1 then a else p) else d ++ [a]), P kv := by
      split_ifs
      · intro kv hkv
        rcases List.mem_map.mp hkv with ⟨p, hp, rfl⟩
        by_cases hpa : p.1 = a.1
        · simpa [hpa] using ha a (by simp)
        · simpa [hpa] using hd p hp
      · intro kv hkv
        rcases List.mem_append.mp hkv with h | h
        · exact hd kv h
        · have hk : kv = a := by simpa using h
          rw [hk]
          exact ha a (by simp)
    exact ih _ hstep (fun kv hkv => ha kv (by simp [hkv]))

/-- A guarded `filters.update(...)` step preserves a pointwise property. -/
theorem guard_update_pres (P : String × FilterVal → Prop) (c : Prop) [Decidable c]
    (d add : List (String × FilterVal)) (hd : ∀ kv ∈ d, P kv)
    (ha : c → ∀ kv ∈ add, P kv) :
    ∀ kv ∈ (if c then dictUpdate d add else d), P kv := by
  split_ifs with h
  · exact dictUpdate_pres P add d hd (ha h)
  · exact hd

/-- Every filter entry built by the planner's requested-fields block comes
from a requested field. -/
theorem plannerFilters_mem (i : IntentResult) :
    ∀ kv ∈ plannerFilters i, filterFromRequested i kv := by
  unfold plannerFilters
  apply guard_update_pres
  apply guard_update_pres
  apply guard_update_pres
  apply guard_update_pres
  apply guard_update_pres
  apply guard_update_pres
  apply guard_update_pres
  apply guard_update_pres
  · simp
  · intro hc kv hkv
    unfold build_skill_filters at hkv
    split_ifs at hkv
    · simp at hkv
    · simp only [List.mem_singleton] at hkv
      subst hkv
      exact Or.inl ⟨rfl, hc⟩
  · intro hc kv hkv
    unfold build_experience_filters at hkv
    split_ifs at hkv
    · simp only [List.mem_singleton] at hkv
      subst hkv
      exact Or.inr (Or.inl ⟨rfl, hc⟩)
    · simp at hkv
  · intro hc kv hkv
    unfold build_location_filter at hkv
    split at hkv
    · simp at hkv
    · simp only [List.mem_singleton] at hkv
      subst hkv
      exact Or.inr (Or.inr (Or.inl ⟨rfl, hc⟩))
  · intro hc kv hkv
    unfold build_roles_filter at hkv
    split_ifs at hkv
    · simp at hkv
    · simp only [List.mem_singleton] at hkv
      subst hkv
      exact Or.inr (Or.inr (Or.inr (Or.inl ⟨rfl, hc⟩)))
  · intro hc kv hkv
    unfold build_education_filter at hkv
    split_ifs at hkv
    · simp at hkv
    · simp only [List.mem_singleton] at hkv
      subst hkv
      exact Or.inr (Or.inr (Or.inr (Or.inr (Or.inl ⟨rfl, hc⟩))))
  · intro hc kv hkv
    unfold build_certifications_filter at hkv
    split_ifs at hkv
    · simp at hkv
    · simp only [List.mem_singleton] at hkv
      subst hkv
      exact Or.inr (Or.inr (Or.inr (Or.inr (Or.inr (Or.inl ⟨rfl, hc⟩)))))
  · intro hc kv hkv
    unfold build_projects_filter at hkv
    split_ifs at hkv
    · simp at hkv
    · simp only [List.mem_singleton] at hkv
      subst hkv
      exact Or.inr (Or.inr (Or.inr (Or.inr (Or.inr (Or.inr (Or.inl ⟨rfl, hc⟩))))))
  · intro hc kv hkv
    unfold build_languages_filter at hkv
    split_ifs at hkv
    · simp at hkv
    · simp only [List.mem_singleton] at hkv
      subst hkv
      exact Or.inr (Or.inr (Or.inr (Or.inr (Or.inr (Or.inr (Or.inr ⟨rfl, hc⟩))))))

/-- Inversion of a successful validated `QueryPlan` construction. -/
theorem mkQueryPlan_ok (q p : QueryPlan) (h : mkQueryPlan q = .ok p) : p = q := by
  unfold mkQueryPlan at h
  split_ifs at h
  exact (Except.ok.inj h).symm

/-- A non-toxic, non-general analysis sends the planner to its main path. -/
theorem plannerBody_nontoxic (i : IntentResult) (a : AnalysisDict)
    (ht : a.is_toxic = false) (hgk : a.requires_general_knowledge = false) :
    plannerBody i (some a) = plannerMain i := by
  simp [plannerBody, ht, hgk]

/-- `plannerMain` unfolded to its validated record. -/
theorem plannerMain_eq (i : IntentResult) :
    plannerMain i = mkQueryPlan
      { query_type := if plannerFilters i = [] then "GeneralQuery"
          else if (plannerFilters i).length = 1 then "MetadataQuery" else "MultiHopQuery"
        metadata_filters := plannerFilters i
        suggested_top_k := 5 + pyIntTrunc (10 * i.confidence)
        requires_reranking := if 0 < (plannerFilters i).length then true else false
        route := "process"
        requested_fields := i.requested_fields } := rfl

/-- With requested_fields = ["skills"] and non-empty skills, the planner's
filter block builds exactly the skills predicate. -/
theorem plannerFilters_skills_only (i : IntentResult)
    (hrf : i.requested_fields = ["skills"]) (hsk : i.skills ≠ []) :
    plannerFilters i = [("skills.technical", FilterVal.inList (i.skills.map pyLower))] := by
  unfold plannerFilters
  simp [hrf, build_skill_filters, hsk, dictUpdate]

/-- C5 counterexample: an intent with `requested_fields = ["skills"]`,
non-empty skills, and confidence 2.0 makes `suggested_top_k = 25`, the
pydantic validation fails, and the fallback plan carries NO filter keys
instead of the one skills predicate the claim requires regardless of the
other populated fields. -/
theorem planner_high_confidence_drops_filters :
    intentHighConfidence.requested_fields = ["skills"] ∧
    intentHighConfidence.skills ≠ [] ∧
    (query_planner_tool intentHighConfidence (some {})).metadata_filters = [] := by
  refine ⟨rfl, by simp [intentHighConfidence], ?_⟩
  have htr : pyIntTrunc (10 * intentHighConfidence.confidence) = 20 := by
    simp only [intentHighConfidence, pyIntTrunc]
    norm_num
  have hv : ¬ (validQueryPlan
      { query_type := if plannerFilters intentHighConfidence = [] then "GeneralQuery"
          else if (plannerFilters intentHighConfidence).length = 1 then "MetadataQuery" else "MultiHopQuery"
        metadata_filters := plannerFilters intentHighConfidence
        suggested_top_k := 5 + pyIntTrunc (10 * intentHighConfidence.confidence)
        requires_reranking := if 0 < (plannerFilters intentHighConfidence).length then true else false
        route := "process"
        requested_fields := intentHighConfidence.requested_fields } = true) := by
    simp [validQueryPlan, htr]
  unfold query_planner_tool
  rw [plannerBody_nontoxic _ _ rfl rfl, plannerMain_eq]
  unfold mkQueryPlan
  rw [if_neg hv]

/-- C5 (amended): for every intent and every non-toxic, non-general
analysis, the planner builds metadata predicates only for fields present in
`requested_fields`; and when `requested_fields = ["skills"]` with a
non-empty skills list, the plan carries exactly the one skills predicate —
provided the confidence keeps `suggested_top_k = 5 + int(10·confidence)`
inside the validated range [1, 20] (otherwise validation fails and the
fallback plan carries no filters at all). -/
theorem planner_requested_fields_only (i : IntentResult) (a : AnalysisDict)
    (ht : a.is_toxic = false) (hgk : a.requires_general_knowledge = false) :
    (∀ kv ∈ (query_planner_tool i (some a)).metadata_filters, filterFromRequested i kv) ∧
    (i.requested_fields = ["skills"] → i.skills ≠ [] →
      1 ≤ 5 + pyIntTrunc (10 * i.confidence) → 5 + pyIntTrunc (10 * i.confidence) ≤ 20 →
      (query_planner_tool i (some a)).metadata_filters
        = [("skills.technical", FilterVal.inList (i.skills.map pyLower))]) := by
  constructor
  · have hcases : (query_planner_tool i (some a)).metadata_filters = plannerFilters i ∨
        (query_planner_tool i (some a)).metadata_filters = [] := by
      unfold query_planner_tool
      rw [plannerBody_nontoxic i a ht hgk]
      rcases hp : plannerMain i with e | p
      · right; simp only [hp]
      · left
        have hpq := mkQueryPlan_ok _ p (by rw [← plannerMain_eq]; exact hp)
        simp only [hp, hpq]
    rcases hcases with h | h <;> rw [h]
    · exact plannerFilters_mem i
    · simp
  · intro hrf hsk hk1 hk2
    have hf := plannerFilters_skills_only i hrf hsk
    have hv : validQueryPlan
        { query_type := if plannerFilters i = [] then "GeneralQuery"
            else if (plannerFilters i).length = 1 then "MetadataQuery" else "MultiHopQuery"
          metadata_filters := plannerFilters i
          suggested_top_k := 5 + pyIntTrunc (10 * i.confidence)
          requires_reranking := if 0 < (plannerFilters i).length then true else false
          route := "process"
          requested_fields := i.requested_fields } = true := by
      simp [validQueryPlan, hf, hk1, hk2]
    unfold query_planner_tool
    rw [plannerBody_nontoxic i a ht hgk, plannerMain_eq]
    unfold mkQueryPlan
    rw [if_pos hv]
    exact hf

/-- C5 witness: the amended statement at a concrete skills-only intent with
populated roles and location and confidence 1. -/
theorem planner_requested_fields_only_witness :
    ({} : AnalysisDict).is_toxic = false ∧
    ({} : AnalysisDict).requires_general_knowledge = false ∧
    (query_planner_tool intentSkillsOnly (some {})).metadata_filters
      = [("skills.technical", FilterVal.inList ["python"])] := by
  refine ⟨rfl, rfl, ?_⟩
  have htr : pyIntTrunc (10 * intentSkillsOnly.confidence) = 10 := by
    simp only [intentSkillsOnly, pyIntTrunc]
    norm_num
  have h := (planner_requested_fields_only intentSkillsOnly {} rfl rfl).2
    rfl (by simp [intentSkillsOnly]) (by rw [htr]; norm_num) (by rw [htr]; norm_num)
  rw [h]
  decide

/- ------------------------------------------------------------------ -/
/- C10                                                                 -/
/- ------------------------------------------------------------------ -/

/-- The descending score order used by `aggregate_contexts` is transitive. -/
theorem resultSortLE_trans : ∀ (a b c : SearchResult),
    resultSortLE a b = true → resultSortLE b c = true → resultSortLE a c = true := by
  intro a b c hab hbc
  simp only [resultSortLE, decide_eq_true_eq] at *
  exact le_trans hbc hab

/-- The descending score order is total. -/
theorem resultSortLE_total : ∀ (a b : SearchResult),
    (resultSortLE a b || resultSortLE b a) = true := by
  intro a b
  simp only [resultSortLE, Bool.or_eq_true, decide_eq_true_eq]
  exact le_total b.score a.score

/-- C10: on an input longer than `max_candidates`, `aggregate_contexts`
sorts descending by retrieval score, aggregates only the `max_candidates`
highest-scoring results, and every result it discards scores no higher than
any result it keeps. -/
theorem aggregate_contexts_truncates (query : String) (k : Nat)
    (rf : Option (List String)) (mem : List SearchResult) (cy : Int)
    (rs : List SearchResult) (hk : k < rs.length) :
    aggregate_contexts rs query k rf mem cy
      = .report (aggregate (mkContextAggregator query rf mem cy)
          ((rs.mergeSort resultSortLE).take k)) ∧
    ∀ x ∈ (rs.mergeSort resultSortLE).take k,
      ∀ y ∈ (rs.mergeSort resultSortLE).drop k, y.score ≤ x.score := by
  constructor
  · have hne : rs ≠ [] := by
      intro h
      subst h
      simp at hk
    have hlen : k < (rs.mergeSort resultSortLE).length := by
      rw [List.length_mergeSort]
      exact hk
    unfold aggregate_contexts
    rw [if_neg hne]
    dsimp only
    rw [if_pos hlen]
  · have hsorted : List.Pairwise (fun a b => resultSortLE a b = true) (rs.mergeSort resultSortLE) :=
      List.sorted_mergeSort resultSortLE_trans resultSortLE_total rs
    rw [← List.take_append_drop k (rs.mergeSort resultSortLE)] at hsorted
    intro x hx y hy
    have := (List.pairwise_append.mp hsorted).2.2 x hx y hy
    simpa [resultSortLE] using this

/-- C10 witness: a two-element input truncated to the single higher-scoring
result. -/
theorem aggregate_contexts_truncates_witness :
    1 < ([resLow, resHigh] : List SearchResult).length ∧
    (aggregate_contexts [resLow, resHigh] "q" 1 none [] 2024
        = .report (aggregate (mkContextAggregator "q" none [] 2024)
            (([resLow, resHigh].mergeSort resultSortLE).take 1)) ∧
      ∀ x ∈ ([resLow, resHigh].mergeSort resultSortLE).take 1,
        ∀ y ∈ ([resLow, resHigh].mergeSort resultSortLE).drop 1, y.score ≤ x.score) :=
  ⟨by simp, aggregate_contexts_truncates "q" 1 none [] 2024 [resLow, resHigh] (by simp)⟩

/- ------------------------------------------------------------------ -/
/- C6                                                                  -/
/- ------------------------------------------------------------------ -/

/-- The per-record invariant of the `candidates` dict: the key is the derived
identity of the record's metadata, the experience list is the record's parsed
EXPERIENCE, and the score was computed from it at creation. -/
def candidateInv (agg : ContextAggregator) (kc : String × Candidate) : Prop :=
  kc.1 = derivedId kc.2.metadata ∧
  kc.2.experience = kc.2.metadata.EXPERIENCE ∧
  kc.2.score = score_candidate agg.currentYear (scorerQueryTerms agg.query) kc.2.experience

/-- Appending a text chunk to a record preserves the invariant. -/
theorem candidateInv_chunk (agg : ContextAggregator) (kc : String × Candidate)
    (h : candidateInv agg kc) (txt : String) (sc : ℚ) :
    candidateInv agg (kc.1, { kc.2 with text_chunks := kc.2.text_chunks ++ [(txt, sc)] }) := by
  obtain ⟨h1, h2, h3⟩ := h
  exact ⟨h1, h2, h3⟩

/-- A freshly created record satisfies the invariant. -/
theorem candidateInv_mk (agg : ContextAggregator) (md : Metadata) :
    candidateInv agg (derivedId md, mkCandidate agg md) :=
  ⟨rfl, rfl, rfl⟩

/-- The chunk-append map preserves the per-record invariant. -/
theorem chunkMap_inv (agg : ContextAggregator) (cid txt : String) (sc : ℚ)
    (l : List (String × Candidate)) (hl : ∀ kc ∈ l, candidateInv agg kc) :
    ∀ kc ∈ l.map (fun p => if p.1 = cid
        then (p.1, { p.2 with text_chunks := p.2.text_chunks ++ [(txt, sc)] })
        else p), candidateInv agg kc := by
  intro kc hkc
  rcases List.mem_map.mp hkc with ⟨p, hp, rfl⟩
  by_cases h : p.1 = cid
  · simp only [if_pos h]
    exact candidateInv_chunk agg p (hl p hp) _ _
  · simp only [if_neg h]
    exact hl p hp

/-- Appending a freshly created record preserves the invariant. -/
theorem append_new_inv (agg : ContextAggregator) (acc : List (String × Candidate))
    (md : Metadata) (hacc : ∀ kc ∈ acc, candidateInv agg kc) :
    ∀ kc ∈ acc ++ [(derivedId md, mkCandidate agg md)], candidateInv agg kc := by
  intro kc hkc
  rcases List.mem_append.mp hkc with h | h
  · exact hacc kc h
  · have hk : kc = (derivedId md, mkCandidate agg md) := by simpa using h
    rw [hk]
    exact candidateInv_mk agg md

/-- One `addResult` step preserves the per-record invariant. -/
theorem addResult_inv (agg : ContextAggregator) (acc : List (String × Candidate))
    (r : SearchResult) (hacc : ∀ kc ∈ acc, candidateInv agg kc) :
    ∀ kc ∈ addResult agg acc r, candidateInv agg kc := by
  intro kc hkc
  unfold addResult at hkc
  dsimp only at hkc
  split_ifs at hkc <;>
    first
      | exact hacc kc hkc
      | exact chunkMap_inv agg _ _ _ acc hacc kc hkc
      | exact append_new_inv agg acc r.metadata hacc kc hkc
      | exact chunkMap_inv agg _ _ _ _ (append_new_inv agg acc r.metadata hacc) kc hkc

/-- The whole `candidates` dict satisfies the per-record invariant. -/
theorem buildCandidates_inv (agg : ContextAggregator) :
    ∀ (rs : List SearchResult) (acc : List (String × Candidate)),
      (∀ kc ∈ acc, candidateInv agg kc) →
      ∀ kc ∈ rs.foldl (addResult agg) acc, candidateInv agg kc := by
  intro rs
  induction rs with
  | nil => intro acc hacc; simpa using hacc
  | cons r t ih =>
    intro acc hacc
    simp only [List.foldl_cons]
    exact ih _ (addResult_inv agg acc r hacc)

/-- The chunk-append map of `addResult` does not change the dict's keys. -/
theorem map_fst_chunk (cid : String) (txt : String) (sc : ℚ) :
    ∀ (l : List (String × Candidate)),
      (l.map (fun p => if p.1 = cid
        then (p.1, { p.2 with text_chunks := p.2.text_chunks ++ [(txt, sc)] })
        else p)).map (·.1) = l.map (·.1) := by
  intro l
  induction l with
  | nil => rfl
  | cons p t ih =>
    by_cases h : p.1 = cid <;> simp [h, ih]

/-- Key evolution of one `addResult` step: unchanged when the identity was
seen, appended otherwise. -/
theorem addResult_keys (agg : ContextAggregator) (acc : List (String × Candidate))
    (r : SearchResult) :
    (addResult agg acc r).map (·.1)
      = if derivedId r.metadata ∈ acc.map (·.1) then acc.map (·.1)
        else acc.map (·.1) ++ [derivedId r.metadata] := by
  have hany : (acc.any fun p => decide (p.1 = derivedId r.metadata))
      = decide (derivedId r.metadata ∈ acc.map (·.1)) := by
    cases hb : acc.any fun p => decide (p.1 = derivedId r.metadata) with
    | true =>
      rw [List.any_eq_true] at hb
      obtain ⟨p, hp, hpe⟩ := hb
      simp only [decide_eq_true_eq] at hpe
      have hm : derivedId r.metadata ∈ acc.map (·.1) := List.mem_map.mpr ⟨p, hp, hpe⟩
      simp [hm]
    | false =>
      rw [← Bool.not_eq_true, List.any_eq_true] at hb
      have hm : derivedId r.metadata ∉ acc.map (·.1) := by
        intro hmem
        rcases List.mem_map.mp hmem with ⟨p, hp, hpe⟩
        exact hb ⟨p, hp, by simp [hpe]⟩
      simp [hm]
  unfold addResult
  dsimp only
  by_cases h1 : derivedId r.metadata ∈ acc.map (·.1)
  · rw [if_pos h1]
    have h1' : (acc.any fun p => decide (p.1 = derivedId r.metadata)) = true := by
      rw [hany, decide_eq_true_eq]; exact h1
    rw [if_pos h1']
    split_ifs
    · exact map_fst_chunk _ _ _ acc
    · rfl
  · rw [if_neg h1]
    have h1' : ¬ (acc.any fun p => decide (p.1 = derivedId r.metadata)) = true := by
      rw [hany, decide_eq_true_eq]; exact h1
    rw [if_neg h1']
    split_ifs
    · rw [map_fst_chunk]
      simp
    · simp

/-- The dict keys of `buildCandidates` are the first-occurrence dedup of the
derived identities of the inputs. -/
theorem buildCandidates_keys (agg : ContextAggregator) :
    ∀ (rs : List SearchResult) (acc : List (String × Candidate)),
      (rs.foldl (addResult agg) acc).map (·.1)
        = rs.foldl (fun ks r => if derivedId r.metadata ∈ ks then ks
            else ks ++ [derivedId r.metadata]) (acc.map (·.1)) := by
  intro rs
  induction rs with
  | nil => intro acc; rfl
  | cons r t ih =>
    intro acc
    simp only [List.foldl_cons]
    rw [ih, addResult_keys]

/-- Any identity occurring among the inputs keys exactly one record of the
candidates dict. -/
theorem buildCandidates_count (agg : ContextAggregator) (rs : List SearchResult) (d : String)
    (hd : ∃ r ∈ rs, derivedId r.metadata = d) :
    (buildCandidates agg rs).countP (fun kc => decide (kc.1 = d)) = 1 := by
  have hkeys : (buildCandidates agg rs).map (·.1)
      = pyDedup (rs.map (fun r => derivedId r.metadata)) := by
    unfold buildCandidates pyDedup
    rw [buildCandidates_keys agg rs []]
    simp only [List.map_nil]
    rw [List.foldl_map]
  have hnodup : ((buildCandidates agg rs).map (·.1)).Nodup := by
    rw [hkeys]
    exact pyDedup_nodup _
  have hmem : d ∈ (buildCandidates agg rs).map (·.1) := by
    rw [hkeys, pyDedup_mem]
    rcases hd with ⟨r, hr, hre⟩
    exact List.mem_map.mpr ⟨r, hr, hre⟩
  have hbeq : ∀ kc ∈ buildCandidates agg rs,
      (fun kc : String × Candidate => decide (kc.1 = d)) kc = true
        ↔ ((fun x => x == d) ∘ (·.1)) kc = true := by
    intro kc _
    by_cases h : kc.1 = d <;> simp [h]
  rw [List.countP_congr hbeq, ← List.countP_map]
  have : ((buildCandidates agg rs).map (·.1)).count d = 1 :=
    List.count_eq_one_of_mem hnodup hmem
  simpa [List.count] using this

/-- C6: `process_results` groups results by derived identity (explicit id,
else EMAIL, else the stable metadata hash): any two inputs sharing the same
derived identity merge into exactly one CandidateRecord, whose experience is
its metadata's parsed EXPERIENCE and whose score was computed once from that
experience at record creation. -/
theorem process_results_dedup (agg : ContextAggregator) (rs : List SearchResult)
    (r1 r2 : SearchResult) (h1 : r1 ∈ rs) (h2 : r2 ∈ rs)
    (hid : derivedId r1.metadata = derivedId r2.metadata) :
    (process_results agg rs).countP
        (fun c => decide (derivedId c.metadata = derivedId r1.metadata)) = 1 ∧
    ∀ c ∈ process_results agg rs,
      c.experience = c.metadata.EXPERIENCE ∧
      c.score = score_candidate agg.currentYear (scorerQueryTerms agg.query) c.experience := by
  have hinv : ∀ kc ∈ buildCandidates agg (rs ++ agg.memoryResults), candidateInv agg kc := by
    unfold buildCandidates
    exact buildCandidates_inv agg (rs ++ agg.memoryResults) [] (by simp)
  constructor
  · unfold process_results
    rw [List.Perm.countP_eq _ (List.mergeSort_perm _ _)]
    rw [List.countP_map]
    have hcong : ∀ kc ∈ buildCandidates agg (rs ++ agg.memoryResults),
        ((fun c => decide (derivedId c.metadata = derivedId r1.metadata)) ∘ (·.2)) kc = true
          ↔ (fun kc : String × Candidate => decide (kc.1 = derivedId r1.metadata)) kc = true := by
      intro kc hkc
      have h := (hinv kc hkc).1
      simp only [Function.comp_apply]
      rw [h]
    rw [List.countP_congr hcong]
    exact buildCandidates_count agg _ _ ⟨r1, List.mem_append_left _ h1, rfl⟩
  · intro c hc
    unfold process_results at hc
    have hc' : c ∈ (buildCandidates agg (rs ++ agg.memoryResults)).map (·.2) :=
      (List.mergeSort_perm _ _).mem_iff.mp hc
    rcases List.mem_map.mp hc' with ⟨kc, hkc, rfl⟩
    exact ⟨(hinv kc hkc).2.1, (hinv kc hkc).2.2⟩

/-- C6 witness: two results with the same email merge into exactly one
record of the processed output. -/
theorem process_results_dedup_witness :
    resA ∈ [resA, resB] ∧ resB ∈ [resA, resB] ∧
    derivedId resA.metadata = derivedId resB.metadata ∧
    ((process_results aggPlain [resA, resB]).countP
        (fun c => decide (derivedId c.metadata = derivedId resA.metadata)) = 1 ∧
      ∀ c ∈ process_results aggPlain [resA, resB],
        c.experience = c.metadata.EXPERIENCE ∧
        c.score = score_candidate aggPlain.currentYear (scorerQueryTerms aggPlain.query) c.experience) :=
  ⟨by simp, by simp, rfl,
    process_results_dedup aggPlain [resA, resB] resA resB (by simp) (by simp) rfl⟩

/- ------------------------------------------------------------------ -/
/- C8                                                                  -/
/- ------------------------------------------------------------------ -/

/-- The seniority factor of a position score is always positive. -/
theorem seniority_pos (title : String) :
    0 < (((SENIORITY_WEIGHTS.find? (fun p => strHasSub title p.1)).map (·.2)).getD 1) := by
  cases hf : SENIORITY_WEIGHTS.find? (fun p => strHasSub title p.1) with
  | none => simp
  | some pr =>
    have hmem : pr ∈ SENIORITY_WEIGHTS := List.mem_of_find?_eq_some hf
    have hall : ∀ p ∈ SENIORITY_WEIGHTS, (0:ℚ) < p.2 := by
      intro p hp
      fin_cases hp <;> norm_num
    simpa using hall pr hmem

/-- A longer duration (same end year, earlier start year), all other fields
equal, never lowers a position's score. -/
theorem calculate_position_score_mono (cy : Int) (qts : List String) (j1 j2 : Job)
    (ht : j1.TITLE = j2.TITLE) (hc : j1.COMPANY = j2.COMPANY)
    (hr : j1.RESPONSIBILITIES = j2.RESPONSIBILITIES)
    {s1 s2 e : Int}
    (h1 : parse_duration cy (j1.DURATION.getD "") = some (s1, e))
    (h2 : parse_duration cy (j2.DURATION.getD "") = some (s2, e))
    (hse : s2 ≤ s1) :
    calculate_position_score cy qts j1 ≤ calculate_position_score cy qts j2 := by
  unfold calculate_position_score
  rw [h1, h2, ht, hc, hr]
  dsimp only
  have hyI : max 1 (e - s1) ≤ max 1 (e - s2) := by omega
  have hy1 : (1 : Int) ≤ max 1 (e - s1) := le_max_left _ _
  have hyQ : ((max 1 (e - s1) : Int) : ℚ) ≤ ((max 1 (e - s2) : Int) : ℚ) := by
    exact_mod_cast hyI
  have hy1Q : (1 : ℚ) ≤ ((max 1 (e - s1) : Int) : ℚ) := by exact_mod_cast hy1
  have hbase : ((max 1 (e - s1) : Int) : ℚ) * (1 + 1/10 * ((max 1 (e - s1) : Int) : ℚ))
      ≤ ((max 1 (e - s2) : Int) : ℚ) * (1 + 1/10 * ((max 1 (e - s2) : Int) : ℚ)) := by
    nlinarith
  have hR : (0:ℚ) ≤ max (4/5) (6/5 - ((cy - e : Int) : ℚ) * (1/25)) :=
    le_trans (by norm_num) (le_max_left _ _)
  have hS : (0:ℚ) ≤ (((SENIORITY_WEIGHTS.find?
      (fun p => strHasSub (pyLower (j2.TITLE.getD "")) p.1)).map (·.2)).getD 1) :=
    (seniority_pos _).le
  have hB : (0:ℚ) ≤ (if qts.any (fun t => 3 < t.length && strHasSub
      (pyLower ((j2.TITLE.getD "") ++ " " ++ (j2.COMPANY.getD "") ++ " "
        ++ (j2.RESPONSIBILITIES.getD ""))) t) then (13/10 : ℚ) else 1) := by
    split_ifs <;> norm_num
  exact mul_le_mul_of_nonneg_right
    (mul_le_mul_of_nonneg_right (mul_le_mul_of_nonneg_right hbase hR) hS) hB

/-- Candidate totals are monotone under lengthening one entry's duration. -/
theorem score_candidate_mono (cy : Int) (qts : List String) (pre post : List Job)
    (j1 j2 : Job)
    (ht : j1.TITLE = j2.TITLE) (hc : j1.COMPANY = j2.COMPANY)
    (hr : j1.RESPONSIBILITIES = j2.RESPONSIBILITIES)
    {s1 s2 e : Int}
    (h1 : parse_duration cy (j1.DURATION.getD "") = some (s1, e))
    (h2 : parse_duration cy (j2.DURATION.getD "") = some (s2, e))
    (hse : s2 ≤ s1) :
    score_candidate cy qts (pre ++ j1 :: post) ≤ score_candidate cy qts (pre ++ j2 :: post) := by
  have hpos := calculate_position_score_mono cy qts j1 j2 ht hc hr h1 h2 hse
  unfold score_candidate
  rw [if_neg (by simp), if_neg (by simp)]
  simp only [List.map_append, List.map_cons, List.sum_append, List.sum_cons]
  apply pyRound2_mono
  have hsum : (pre.map (calculate_position_score cy qts)).sum
        + (calculate_position_score cy qts j1
            + (post.map (calculate_position_score cy qts)).sum)
      ≤ (pre.map (calculate_position_score cy qts)).sum
        + (calculate_position_score cy qts j2
            + (post.map (calculate_position_score cy qts)).sum) := by
    linarith
  by_cases h3 : 3 ≤ (pre ++ j1 :: post).length
  · rw [if_pos h3, if_pos (by simp only [List.length_append, List.length_cons] at h3 ⊢; omega)]
    linarith
  · rw [if_neg h3, if_neg (by simp only [List.length_append, List.length_cons] at h3 ⊢; omega)]
    exact hsum

/-- C8: the experience score of the empty entry list is 0, and the candidate
total is monotonically non-decreasing in entry duration length, all else
equal: replacing one entry by one with the same title/company/
responsibilities, the same parsed end year and an earlier parsed start year
never lowers the total. -/
theorem score_empty_and_duration_mono (cy : Int) (qts : List String)
    (pre post : List Job) (j1 j2 : Job)
    (ht : j1.TITLE = j2.TITLE) (hc : j1.COMPANY = j2.COMPANY)
    (hr : j1.RESPONSIBILITIES = j2.RESPONSIBILITIES)
    (s1 s2 e : Int)
    (h1 : parse_duration cy (j1.DURATION.getD "") = some (s1, e))
    (h2 : parse_duration cy (j2.DURATION.getD "") = some (s2, e))
    (hse : s2 ≤ s1) :
    score_candidate cy qts [] = 0 ∧
    score_candidate cy qts (pre ++ j1 :: post) ≤ score_candidate cy qts (pre ++ j2 :: post) :=
  ⟨rfl, score_candidate_mono cy qts pre post j1 j2 ht hc hr h1 h2 hse⟩

/-- C8 witness: `"2020 - 2022"` versus `"2018 - 2022"` on an otherwise
identical senior position. -/
theorem score_empty_and_duration_mono_witness :
    jobShort.TITLE = jobLong.TITLE ∧ jobShort.COMPANY = jobLong.COMPANY ∧
    jobShort.RESPONSIBILITIES = jobLong.RESPONSIBILITIES ∧
    parse_duration 2024 (jobShort.DURATION.getD "") = some (2020, 2022) ∧
    parse_duration 2024 (jobLong.DURATION.getD "") = some (2018, 2022) ∧
    (2018 : Int) ≤ 2020 ∧
    (score_candidate 2024 [] [] = 0 ∧
      score_candidate 2024 [] [jobShort] ≤ score_candidate 2024 [] [jobLong]) :=
  ⟨rfl, rfl, rfl, by decide, by decide, by decide,
    score_empty_and_duration_mono 2024 [] [] [] jobShort jobLong rfl rfl rfl
      2020 2018 2022 (by decide) (by decide) (by decide)⟩

/- ------------------------------------------------------------------ -/
/- C4                                                                  -/
/- ------------------------------------------------------------------ -/

/-- A non-toxic, non-general analysis always yields a `"process"` route
(both the validated main plan and the exception fallback carry it). -/
theorem query_planner_route_process (i : IntentResult) (a : AnalysisDict)
    (ht : a.is_toxic = false) (hgk : a.requires_general_knowledge = false) :
    (query_planner_tool i (some a)).route = "process" := by
  unfold query_planner_tool
  rw [plannerBody_nontoxic i a ht hgk]
  rcases hp : plannerMain i with e | p
  · simp only [hp]
  · simp only [hp]
    have hpq := mkQueryPlan_ok _ p (by rw [← plannerMain_eq]; exact hp)
    rw [hpq]

/-- C4: on every pipeline run that reaches the retrieval stage, retrieval is
re-invoked with cleared filters exactly when the first call returned empty
and the plan's filters were non-empty — so retrieval runs at most twice and
is never retried when the filters were empty — and when the final result is
still empty the run terminates as a success carrying the
`"No matching candidates found"` response. -/
theorem pipeline_retry_once (env : PipelineEnv) (q : String) (topK : Nat)
    (d : IntentDict) (ir : IntentResult)
    (h1 : (pipelineAnalysis env q).immediate_response = none)
    (h2 : ¬((pipelineAnalysis env q).is_toxic ∧ ¬(pipelineAnalysis env q).should_process))
    (h3 : pipelineIntent env q = .ok d)
    (h4 : mkIntentResult d = .ok ir)
    (h5 : ¬ ir.confidence < 3/10)
    (h6 : (pipelinePlan env q ir).route ≠ "reject") :
    ((retrievalStage (pipelineRetrieve env q topK)
        (pipelinePlan env q ir).metadata_filters).2).length ≤ 2 ∧
    (pipelineRetrieve env q topK (pipelinePlan env q ir).metadata_filters = []
        ∧ (pipelinePlan env q ir).metadata_filters ≠ [] →
      (retrievalStage (pipelineRetrieve env q topK)
          (pipelinePlan env q ir).metadata_filters).2
        = [(pipelinePlan env q ir).metadata_filters, []]) ∧
    (¬(pipelineRetrieve env q topK (pipelinePlan env q ir).metadata_filters = []
        ∧ (pipelinePlan env q ir).metadata_filters ≠ []) →
      (retrievalStage (pipelineRetrieve env q topK)
          (pipelinePlan env q ir).metadata_filters).2
        = [(pipelinePlan env q ir).metadata_filters]) ∧
    ((retrievalStage (pipelineRetrieve env q topK)
        (pipelinePlan env q ir).metadata_filters).1 = [] →
      run_cv_query_pipeline env q topK
        = { success := true, response := some "No matching candidates found" }) := by
  refine ⟨?_, ?_, ?_, ?_⟩
  · unfold retrievalStage
    dsimp only
    split_ifs <;> simp
  · intro hcond
    unfold retrievalStage
    dsimp only
    rw [if_pos hcond]
  · intro hcond
    unfold retrievalStage
    dsimp only
    rw [if_neg hcond]
  · intro hempty
    unfold run_cv_query_pipeline
    dsimp only
    rw [if_neg (by rw [h1]; simp), if_neg h2, h3]
    dsimp only
    rw [h4]
    dsimp only
    rw [if_neg h5, if_neg h6, if_pos hempty]

/-- C4 witness: a concrete environment whose retriever always returns the
empty list; the run reaches retrieval, retries once without filters, and
terminates successfully with the no-matching-candidates response. -/
theorem pipeline_retry_once_witness :
    (pipelineAnalysis envNoMatches "find python developers").immediate_response = none ∧
    ¬((pipelineAnalysis envNoMatches "find python developers").is_toxic
        ∧ ¬(pipelineAnalysis envNoMatches "find python developers").should_process) ∧
    pipelineIntent envNoMatches "find python developers" = .ok skillIntentDict ∧
    mkIntentResult skillIntentDict = .ok skillIntentResult ∧
    ¬ skillIntentResult.confidence < 3/10 ∧
    (pipelinePlan envNoMatches "find python developers" skillIntentResult).route ≠ "reject" ∧
    run_cv_query_pipeline envNoMatches "find python developers" 5
      = { success := true, response := some "No matching candidates found" } := by
  have hroute : (pipelinePlan envNoMatches "find python developers" skillIntentResult).route
      = "process" := by
    unfold pipelinePlan
    exact query_planner_route_process _ _ rfl rfl
  have h6 : (pipelinePlan envNoMatches "find python developers" skillIntentResult).route
      ≠ "reject" := by
    rw [hroute]
    decide
  have h5 : ¬ skillIntentResult.confidence < 3/10 := by
    simp only [skillIntentResult]
    norm_num
  have hempty : (retrievalStage (pipelineRetrieve envNoMatches "find python developers" 5)
      (pipelinePlan envNoMatches "find python developers" skillIntentResult).metadata_filters).1
      = [] := by
    unfold retrievalStage
    dsimp only
    split_ifs <;> rfl
  exact ⟨rfl, by decide, rfl, rfl, h5, h6,
    (pipeline_retry_once envNoMatches "find python developers" 5 skillIntentDict
      skillIntentResult rfl (by decide) rfl rfl h5 h6).2.2.2 hempty⟩
